import Mathlib

/-!
Shallow embedding of the `linkedin-ai-assistant` browser extension core
(observation / extraction / dedup pipeline) together with proofs about it.

Conventions used throughout:

* JavaScript strings are Lean `String`s; character-level operations
  (`String.prototype.replace` with the concrete regexes appearing in the
  source, `trim`, …) are implemented on `List Char` and wrapped.
* The DOM is modelled as an oracle: an `Elem` records, for each concrete CSS
  selector string the source code passes to `querySelector` /
  `querySelectorAll` / `closest`, what the browser would return.  The
  extraction logic (selector cascades, null checks, text processing,
  validation) is translated statement by statement from the TypeScript
  source; CSS matching itself is not re-implemented.
* A JavaScript value that may be `null`/`undefined` is an `Option`;
  dereferencing `none` (which in the browser raises a `TypeError`) is
  modelled in the `Except JsErr` monad.  A `try { … } catch { return null }`
  wrapper is `catchNull`.
* Machine integers: all timestamps are `Nat` milliseconds; JavaScript
  subtraction in comparisons is performed in `Int` to keep the semantics of
  possibly-negative differences.
-/

/-! ## JavaScript string primitives -/

/-- Character class of the JavaScript regexp `\s` (ECMAScript WhiteSpace and
LineTerminator code points), which is also the set trimmed by
`String.prototype.trim`. -/
def isJsWs (c : Char) : Bool :=
  c = ' ' || c = '\t' || c = '\n' || c = '\r' || c = '\u000B' || c = '\u000C' ||
  c = ' ' || c = ' ' || (0x2000 ≤ c.val && c.val ≤ 0x200A) ||
  c = ' ' || c = ' ' || c = ' ' || c = ' ' || c = '　' || c = '﻿'

/-- Character class of the source regexp `[​-‍﻿]` (zero-width
characters removed by the sanitizers). -/
def isZeroWidthChar (c : Char) : Bool :=
  (0x200B ≤ c.val && c.val ≤ 0x200D) || c = '﻿'

/-- Worker for `collapseWs`; the flag records whether we are inside a
whitespace run that has already produced its single replacement space. -/
def collapseWsAux : Bool → List Char → List Char
  | _, [] => []
  | inRun, c :: cs =>
    if isJsWs c then
      if inRun then collapseWsAux true cs else ' ' :: collapseWsAux true cs
    else c :: collapseWsAux false cs

/-- JavaScript `.replace(/\s+/g, ' ')`: every maximal whitespace run becomes
one space. -/
def collapseWs (l : List Char) : List Char := collapseWsAux false l

/-- Decidable prefix test on character lists. -/
def listPre : List Char → List Char → Bool
  | [], _ => true
  | _ :: _, [] => false
  | p :: ps, c :: cs => p = c && listPre ps cs

/-- Decidable substring test on character lists. -/
def containsSub (pat : List Char) : List Char → Bool
  | [] => listPre pat []
  | c :: cs => listPre pat (c :: cs) || containsSub pat cs

/-- String-level substring test: `a.includes(b)`. -/
def strIncludes (a b : String) : Bool := containsSub b.toList a.toList

/-- Worker for `removeAllSub`; the numeric argument counts characters of an
already-matched occurrence that still have to be skipped. -/
def removeAllAux (pat : List Char) : List Char → Nat → List Char
  | [], _ => []
  | _ :: cs, Nat.succ k => removeAllAux pat cs k
  | c :: cs, 0 =>
    if !pat.isEmpty && listPre pat (c :: cs) then removeAllAux pat cs (pat.length - 1)
    else c :: removeAllAux pat cs 0

/-- JavaScript `.replace(/lit/g, '')` for a literal pattern: one left-to-right
pass deleting non-overlapping occurrences. -/
def removeAllSub (pat l : List Char) : List Char := removeAllAux pat l 0

/-- Membership of a single character. -/
def hasChar (t : Char) : List Char → Bool
  | [] => false
  | c :: cs => c = t || hasChar t cs

/-- Worker for `removeTags`; the flag records being inside a matched tag. -/
def removeTagsAux : Bool → List Char → List Char
  | _, [] => []
  | true, d :: ds => if d = '>' then removeTagsAux false ds else removeTagsAux true ds
  | false, c :: cs =>
    if c = '<' && hasChar '>' cs then removeTagsAux true cs
    else c :: removeTagsAux false cs

/-- JavaScript `.replace(/<[^>]*>/g, '')`: delete every segment from a `<` to
the next `>`; a `<` with no later `>` is kept (the regexp cannot match it). -/
def removeTags (l : List Char) : List Char := removeTagsAux false l

/-- Filter implementing `.replace(/[​-‍﻿]/g, '')`. -/
def removeZeroWidth (l : List Char) : List Char := l.filter (fun c => !isZeroWidthChar c)

/-- JavaScript `String.prototype.trim` on a character list. -/
def trimList (l : List Char) : List Char :=
  ((l.dropWhile isJsWs).reverse.dropWhile isJsWs).reverse

/-- JavaScript `String.prototype.trim`. -/
def jsTrim (s : String) : String := (trimList s.toList).asString

/-- JavaScript `a || b` on strings (empty string is falsy). -/
def jsOr (a b : String) : String := if a = "" then b else a

/-- JavaScript `a?.x ?? ''` style read of an optional string. -/
def optStr (o : Option String) : String := o.getD ""

/-- JavaScript `s || undefined`: an empty string becomes an absent value. -/
def strToOpt (s : String) : Option String := if s = "" then none else some s

/-- JavaScript `s.substring(0, n)`. -/
def jsSubstringTo (s : String) (n : Nat) : String := (s.toList.take n).asString

/-- Return the suffix of `l` after the first occurrence of `pat` (leftmost
match), or `none` when `pat` does not occur. -/
def findAfter (pat : List Char) : List Char → Option (List Char)
  | [] => if pat.isEmpty then some [] else none
  | c :: cs =>
    if listPre pat (c :: cs) then some ((c :: cs).drop pat.length)
    else findAfter pat cs

/-- Match the pieces of a regexp of the form `p₁.*p₂.*…` (unanchored)
against a character list that contains no line terminators. -/
def seqContains : List (List Char) → List Char → Bool
  | [], _ => true
  | pat :: pats, l =>
    match findAfter pat l with
    | none => false
    | some rest => seqContains pats rest

/-! ## Sanitizers

`sanitizeText` appears verbatim in `src/utils/post-extractor.ts` and
`src/utils/connection-request-extractor.ts`; `sanitizeMessageText` is the
message-extractor variant that additionally strips HTML tags and maps known
UI-placeholder strings to the empty string. -/

/-- Embeds `sanitizeText` (post-extractor / connection-request-extractor):
normalize whitespace, remove zero-width characters, trim. -/
def sanitizeText (text : String) : String :=
  (trimList (removeZeroWidth (collapseWs text.toList))).asString

/-- Test for the anchored pattern `^Drag your file here\.\s*Select your file`. -/
def matchesDragPlaceholder (l : List Char) : Bool :=
  if listPre "Drag your file here.".toList l then
    listPre "Select your file".toList
      ((l.drop "Drag your file here.".toList.length).dropWhile isJsWs)
  else false

/-- Embeds the `uiPlaceholderPatterns` test of `sanitizeMessageText`
(message extractor): does the cleaned text match one of the known
UI-placeholder regexps? -/
def isUiPlaceholder (cleaned : String) : Bool :=
  let l := cleaned.toList
  matchesDragPlaceholder l ||
  containsSub "Or drag & drop next time".toList l ||
  containsSub "Maximize compose field".toList l ||
  containsSub "Attach an image to your conversation with".toList l ||
  containsSub "Attach a file to your conversation with".toList l ||
  containsSub "Open Emoji Keyboard".toList l ||
  containsSub "Send Open send options".toList l ||
  cleaned = "Write a message…" ||
  cleaned = "Send" ||
  cleaned = "GIF" ||
  containsSub "Add an emoji".toList l ||
  containsSub "Record a voice message".toList l ||
  containsSub "Send a video message".toList l

/-- Pieces of the `combinedUIPattern` regexp
`/Drag your file here.*Select your file.*Or drag.*drop.*time/`. -/
def combinedUiPieces : List (List Char) :=
  ["Drag your file here".toList, "Select your file".toList,
   "Or drag".toList, "drop".toList, "time".toList]

/-- Embeds `sanitizeMessageText` (message extractor): normalize whitespace,
remove zero-width characters, strip HTML tags, trim; then return `""` when
the result is recognised as pure UI-placeholder text. -/
def sanitizeMessageText (text : String) : String :=
  let cleaned := (trimList (removeTags (removeZeroWidth (collapseWs text.toList)))).asString
  if isUiPlaceholder cleaned then ""
  else if seqContains combinedUiPieces cleaned.toList then ""
  else cleaned

/-- The UI-label phrases deleted by `extractMessageText` (message extractor,
composer branch), in the order of its `.replace(/…/g, '')` chain. -/
def uiLabelPhrases : List String :=
  ["Write a message…",
   "Drag your file here.",
   "Select your file",
   "Or drag & drop next time",
   "Open Emoji Keyboard",
   "Send",
   "Open send options",
   "Maximize compose field",
   "Attach an image to your conversation with",
   "Attach a file to your conversation with",
   "Add an emoji",
   "Record a voice message",
   "Send a video message",
   "GIF"]

/-- Embeds the UI-label deletion chain of `extractMessageText` (message
extractor, composer branch): the sequence of `.replace(/…/g, '')` calls in
source order, followed by `.trim()`. -/
def stripUiLabels (text : String) : String :=
  (trimList (uiLabelPhrases.foldl (fun l phrase => removeAllSub phrase.toList l) text.toList)).asString

/-! ## DOM oracle model -/

/-- Minimal JSON value model, for the hidden `<code>` MiniProfile blobs. -/
inductive JsonVal : Type where
  | jnull
  | jbool (b : Bool)
  | jnum (n : Int)
  | jstr (s : String)
  | jarr (elems : List JsonVal)
  | jobj (fields : List (String × JsonVal))

/-- Object field lookup (`j.k`), `none` for non-objects / absent keys. -/
def JsonVal.field : JsonVal → String → Option JsonVal
  | .jobj fields, k => fields.lookup k
  | _, _ => none

/-- Read `j.k` as a string, treating absent or non-string values as `''`
(the source only uses such fields through `x || ''`). -/
def JsonVal.strField (j : JsonVal) (k : String) : String :=
  match j.field k with
  | some (.jstr s) => s
  | _ => ""

/-- DOM element as a query oracle: for each concrete selector string the
source passes to `querySelector` / `querySelectorAll` / `closest`, the
element records what the browser would return; attributes, string-valued
properties (`src`, `href`, `value`, …) and the text contents are stored
directly. -/
inductive Elem : Type where
  | mk
    (textContent : Option String)
    (innerText : Option String)
    (attrs : List (String × String))
    (props : List (String × String))
    (q : List (String × Elem))
    (qa : List (String × List Elem))
    (up : List (String × Elem))

/-- Projection: `textContent`. -/
def Elem.textContent : Elem → Option String
  | .mk t _ _ _ _ _ _ => t

/-- Projection: `innerText`. -/
def Elem.innerText : Elem → Option String
  | .mk _ i _ _ _ _ _ => i

/-- Projection: attribute map. -/
def Elem.attrs : Elem → List (String × String)
  | .mk _ _ a _ _ _ _ => a

/-- Projection: string-property map. -/
def Elem.props : Elem → List (String × String)
  | .mk _ _ _ p _ _ _ => p

/-- Projection: `querySelector` oracle. -/
def Elem.q : Elem → List (String × Elem)
  | .mk _ _ _ _ q _ _ => q

/-- Projection: `querySelectorAll` oracle. -/
def Elem.qa : Elem → List (String × List Elem)
  | .mk _ _ _ _ _ qa _ => qa

/-- Projection: `closest` oracle. -/
def Elem.up : Elem → List (String × Elem)
  | .mk _ _ _ _ _ _ u => u

/-- DOM `getAttribute` (returns `null` for an absent attribute). -/
def Elem.getAttribute (e : Elem) (name : String) : Option String := e.attrs.lookup name

/-- String-valued DOM property read (`img.src`, `a.href`, …); reflected DOM
properties yield `''` when unset, never `null`. -/
def Elem.prop (e : Elem) (name : String) : String := (e.props.lookup name).getD ""

/-- DOM `querySelector` through the oracle. -/
def Elem.querySelector (e : Elem) (sel : String) : Option Elem := e.q.lookup sel

/-- DOM `querySelectorAll` through the oracle. -/
def Elem.querySelectorAll (e : Elem) (sel : String) : List Elem := (e.qa.lookup sel).getD []

/-- DOM `closest` through the oracle. -/
def Elem.closestSel (e : Elem) (sel : String) : Option Elem := e.up.lookup sel

/-- An element with no attributes, no text, and empty oracles. -/
def Elem.empty : Elem := .mk none none [] [] [] [] []

/-- Ambient browser state: the `document` element, `window.location.href`
and `window.location.pathname`, `window.innerWidth`, `Date.now()` and
`new Date().toISOString()` at the moment of the call, the
`Math.random()`-derived suffix used by generated ids, and the `JSON.parse`
oracle (`none` models a thrown `SyntaxError`). -/
structure JsEnv where
  document : Elem
  locationHref : String
  locationPathname : String := ""
  innerWidth : Nat := 1024
  nowMs : Nat
  nowIso : String
  randSuffix : String
  jsonParse : String → Option JsonVal

/-- JavaScript runtime error (`TypeError` from dereferencing
`null`/`undefined`, or an explicitly thrown error). -/
inductive JsErr : Type where
  | typeError
  | thrown (msg : String)

/-- Dereference a possibly-`null` element; `null.x` raises a `TypeError`. -/
def deref : Option Elem → Except JsErr Elem
  | some e => .ok e
  | none => .error .typeError

/-- Model of `try { body } catch (error) { …log…; return null; }`. -/
def catchNull {α : Type} (body : Except JsErr (Option α)) : Except JsErr (Option α) :=
  match body with
  | .error _ => .ok none
  | .ok v => .ok v

/-- `e?.querySelector(sel)` on a possibly-`null` element. -/
def qsOpt (e? : Option Elem) (sel : String) : Option Elem :=
  e?.bind (fun e => e.querySelector sel)

/-- `e?.textContent` on a possibly-`null` element. -/
def textOf (e? : Option Elem) : Option String :=
  e?.bind Elem.textContent

/-- `e?.p || ''` for a string property `p` on a possibly-`null` element. -/
def propOf (e? : Option Elem) (name : String) : String :=
  match e? with
  | some e => e.prop name
  | none => ""

/-- `e?.textContent?.trim() || ''`. -/
def trimTextOf (e? : Option Elem) : String := optStr ((textOf e?).map jsTrim)

/-- JavaScript `a || b` where both sides are possibly-`null` elements. -/
def optOrElse (a b : Option Elem) : Option Elem :=
  match a with
  | some e => some e
  | none => b

/-! ## Post data model (`src/utils/linkedin-dom.ts`) -/

/-- Media kinds from the `MediaItem`/`PostData` type unions; `mixed` only
occurs as an overall `PostData.mediaType`. -/
inductive MediaType : Type where
  | text | image | video | document | article | poll | link | carousel | mixed
deriving DecidableEq, Repr

/-- Metadata record of a `MediaItem` (all fields optional). -/
structure MediaMeta where
  alt : Option String := none
  title : Option String := none
  description : Option String := none
  thumbnail : Option String := none
  duration : Option String := none
  size : Option String := none
  filename : Option String := none
  url : Option String := none
deriving DecidableEq, Repr

/-- One content item of a post. -/
structure MediaItem where
  type : MediaType
  data : String
  metadata : Option MediaMeta := none
deriving DecidableEq, Repr

/-- Structured record of a captured post. -/
structure PostData where
  postId : String
  content : List MediaItem
  author : String
  authorUrl : String
  authorTitle : Option String
  postUrl : String
  timestamp : String
  mediaType : MediaType
  isCompanyPost : Bool
  companyName : Option String
deriving DecidableEq, Repr

/-- Author name and profile URL pair. -/
structure AuthorInfo where
  post_author_name : String
  post_author_profile : String
deriving DecidableEq, Repr

/-- Embeds `getPostId` (src/utils/linkedin-dom.ts): `data-id` attribute, then
`data-urn`, then a generated `post-…` fallback; dereferences the container. -/
def getPostIdE (env : JsEnv) (postContainer : Option Elem) : Except JsErr String := do
  let e ← deref postContainer
  let dataId := jsOr (optStr (e.getAttribute "data-id")) (optStr (e.getAttribute "data-urn"))
  pure (jsOr dataId ("post-" ++ toString env.nowMs ++ "-" ++ env.randSuffix))

/-! ## Post extractor (`src/utils/post-extractor.ts`) -/

namespace PostExtractor

/-- Embeds `extractTextContent`: content block via the post-page selector,
falling back to the feed selector; text from the inner `span`/`a` elements,
falling back to the raw `textContent`. -/
def extractTextContent (container : Elem) : String :=
  let contentBlock :=
    optOrElse (container.querySelector ".feed-shared-inline-show-more-text .update-components-text")
      (container.querySelector ".feed-shared-update-v2__description, .update-components-text")
  match contentBlock with
  | none => ""
  | some cb =>
    let text := String.intercalate " "
      ((cb.querySelectorAll "span, a").filterMap (fun el =>
        match el.innerText with
        | some t => let t := jsTrim t; if t = "" then none else some t
        | none => none))
    if text = "" then jsTrim (optStr cb.textContent) else text

/-- Image selector list of `extractImages`. -/
def imageSelectors : List String :=
  [".feed-shared-image img", ".feed-shared-article__image img", ".media-image img",
   ".feed-shared-image-carousel img", ".image-container img",
   "img[src*=\"media.licdn.com\"]", "img[src*=\"cdn.linkedin.com\"]"]

/-- Embeds `extractImages`: every matched `img` whose `src` is non-empty and
neither a `data:` nor a `blob:` URL becomes an image item. -/
def extractImages (container : Elem) : List MediaItem :=
  (imageSelectors.map (fun selector =>
    (container.querySelectorAll selector).filterMap (fun img =>
      let src := img.prop "src"
      if src ≠ "" && !(strIncludes src "data:") && !(strIncludes src "blob:") then
        some { type := .image, data := src,
               metadata := some { alt := strToOpt (img.prop "alt"),
                                  title := strToOpt (img.prop "title") } }
      else none))).flatten

/-- Video selector list of `extractVideos`. -/
def videoSelectors : List String := ["video", ".feed-shared-video video", ".media-video video"]

/-- Embeds `extractVideos`: direct `video` sources (with `source` child
fallback) kept only when a source URL was found, plus poster images of video
preview containers.  `video.duration` is modelled as a string property. -/
def extractVideos (container : Elem) : List MediaItem :=
  let direct := (videoSelectors.map (fun selector =>
    (container.querySelectorAll selector).filterMap (fun video =>
      let data0 := jsOr (video.prop "src") (video.prop "currentSrc")
      let data :=
        if data0 = "" then
          match video.querySelectorAll "source" with
          | [] => data0
          | s :: _ => s.prop "src"
        else data0
      if data ≠ "" then
        some { type := .video, data := data,
               metadata := some { thumbnail := strToOpt (video.prop "poster"),
                                  duration := strToOpt (video.prop "duration"),
                                  title := strToOpt (video.prop "title") } }
      else none))).flatten
  let previews := (container.querySelectorAll ".feed-shared-video, .media-video").filterMap
    (fun preview =>
      match preview.querySelector "img" with
      | some posterImg =>
        if posterImg.prop "src" ≠ "" then
          some { type := .video, data := posterImg.prop "src",
                 metadata := some { thumbnail := strToOpt (posterImg.prop "src"),
                                    alt := some (jsOr (posterImg.prop "alt") "Video preview"),
                                    description := some "Video thumbnail/preview" } }
        else none
      | none => none)
  direct ++ previews

/-- Document selector list of `extractDocuments`. -/
def documentSelectors : List String :=
  [".feed-shared-document", ".document-attachment", ".feed-shared-file"]

/-- Embeds `extractDocuments`: an item is kept whenever a title element or a
link element is present; its `data` is `link.href || title.textContent || ''`
(note: the raw, untrimmed text content). -/
def extractDocuments (container : Elem) : List MediaItem :=
  (documentSelectors.map (fun selector =>
    (container.querySelectorAll selector).filterMap (fun doc =>
      let titleElement := doc.querySelector ".feed-shared-document__title, .document-title"
      let linkElement := doc.querySelector "a[href]"
      let thumbnail := doc.querySelector "img"
      if titleElement.isSome || linkElement.isSome then
        some { type := .document,
               data := jsOr (propOf linkElement "href") (optStr (textOf titleElement)),
               metadata := some { title := strToOpt (trimTextOf titleElement),
                                  thumbnail := strToOpt (propOf thumbnail "src"),
                                  url := strToOpt (propOf linkElement "href") } }
      else none))).flatten

/-- Embeds `extractArticles`: an item is kept whenever a title or a URL was
found; its `data` is `url || title || ''`. -/
def extractArticles (container : Elem) : List MediaItem :=
  (container.querySelectorAll ".feed-shared-article, .feed-shared-link-post").filterMap
    (fun article =>
      let title := trimTextOf (article.querySelector ".feed-shared-article__title, .link-post-title")
      let description := trimTextOf
        (article.querySelector ".feed-shared-article__description, .link-post-description")
      let url := propOf (article.querySelector "a[href]") "href"
      let thumbnail := article.querySelector ".feed-shared-article__image img, .link-preview-image img"
      if title ≠ "" || url ≠ "" then
        some { type := .article, data := jsOr url (jsOr title ""),
               metadata := some { title := strToOpt title,
                                  description := strToOpt description,
                                  url := strToOpt url,
                                  thumbnail := strToOpt (propOf thumbnail "src") } }
      else none)

/-- Naive JSON string literal (the carousel/poll payload strings contain no
characters that `JSON.stringify` would escape in the cases we reason about). -/
def jsonQ (s : String) : String := "\"" ++ s ++ "\""

/-- JSON serialization of the carousel entry array
(`JSON.stringify(carouselData)`); `alt: undefined` fields are omitted. -/
def mkCarouselJson (items : List (String × Option String)) : String :=
  "[" ++ String.intercalate ","
    (items.map (fun p =>
      "\x7b\"src\":" ++ jsonQ p.1 ++
      (match p.2 with
       | some a => ",\"alt\":" ++ jsonQ a
       | none => "") ++ "\x7d")) ++ "]"

/-- Embeds `extractCarousels`: each carousel container with at least one
image becomes one item whose `data` is the serialized image list. -/
def extractCarousels (container : Elem) : List MediaItem :=
  (container.querySelectorAll ".feed-shared-image-carousel, .media-carousel").enum.filterMap
    (fun idxCarousel =>
      let index := idxCarousel.1
      let carousel := idxCarousel.2
      let carouselData : List (String × Option String) := (carousel.querySelectorAll "img").map
        (fun img => (img.prop "src", strToOpt (img.prop "alt")))
      if carouselData.length > 0 then
        some { type := .carousel, data := mkCarouselJson carouselData,
               metadata := some
                 { title := some ("Image carousel " ++ toString (index + 1)),
                   description := some
                     ("Carousel with " ++ toString carouselData.length ++ " images") } }
      else none)

/-- JSON serialization of `JSON.stringify({question, options})`; an
`undefined` question is omitted. -/
def mkPollJson (question : Option String) (options : List String) : String :=
  "\x7b" ++
  (match question with
   | some s => "\"question\":" ++ jsonQ s ++ ","
   | none => "") ++
  "\"options\":[" ++ String.intercalate "," (options.map jsonQ) ++ "]\x7d"

/-- Embeds `extractPolls`: a poll with a question element or at least one
option becomes one item whose `data` is the serialized question/options. -/
def extractPolls (container : Elem) : List MediaItem :=
  (container.querySelectorAll ".feed-shared-poll, .poll-container").filterMap
    (fun poll =>
      let question := (textOf (poll.querySelector ".poll-question, .feed-shared-poll__question")).map jsTrim
      let options := (poll.querySelectorAll ".poll-option, .feed-shared-poll__option").filterMap
        (fun o =>
          match o.textContent with
          | some t => let t := jsTrim t; if t = "" then none else some t
          | none => none)
      if question.isSome || options.length > 0 then
        some { type := .poll, data := mkPollJson question options,
               metadata := some { title := some (jsOr (optStr question) "Poll"),
                                  description := some
                                    ("Poll with " ++ toString options.length ++ " options") } }
      else none)

/-- Embeds `extractComprehensivePostContent`: text block (only when
non-empty), then images, videos, documents, articles, carousels, polls,
in source order; `null` containers yield `[]`. -/
def extractComprehensivePostContent (container? : Option Elem) : List MediaItem :=
  match container? with
  | none => []
  | some container =>
    (match strToOpt (extractTextContent container) with
     | some textContent => [{ type := .text, data := textContent }]
     | none => []) ++
    extractImages container ++ extractVideos container ++ extractDocuments container ++
    extractArticles container ++ extractCarousels container ++ extractPolls container

/-- Embeds `determineMediaType`: `text` for zero items, `types[0]` for
exactly one item, `mixed` for two or more items. -/
def determineMediaType (content : List MediaItem) : MediaType :=
  let types := content.map (fun item => item.type)
  if types.length = 0 then .text
  else if types.length = 1 then types.headD .mixed
  else .mixed

/-- Embeds `extractPostAuthorInfoUniversal` (post-extractor): post-page
selectors, then feed selectors, then the hidden `code` MiniProfile JSON
blocks (with a per-block `try`/`catch` around `JSON.parse`), then the empty
fallback. -/
def extractPostAuthorInfoUniversal (env : JsEnv) (container? : Option Elem) : AuthorInfo :=
  let authorLink1 := qsOpt container? ".update-components-actor__meta-link[href]"
  let authorName1 := qsOpt container? ".update-components-actor__title span[dir=\"ltr\"]"
  if authorLink1.isSome && authorName1.isSome then
    { post_author_name := trimTextOf authorName1,
      post_author_profile := propOf authorLink1 "href" }
  else
    let authorLink2 := qsOpt container?
      "span.feed-shared-actor__name a, a.update-components-actor__meta-link, a.update-components-actor__image"
    let authorName2 := qsOpt container? "span.feed-shared-actor__name, .update-components-actor__title"
    if authorLink2.isSome && authorName2.isSome then
      { post_author_name := trimTextOf authorName2,
        post_author_profile := propOf authorLink2 "href" }
    else
      match (env.document.querySelectorAll "code[id^=\"bpr-guid-\"]").findSome? (fun code =>
        match env.jsonParse (optStr code.textContent) with
        | none => none
        | some json =>
          match json.field "included" with
          | some (.jarr included) =>
            included.findSome? (fun obj =>
              match obj.field "$type" with
              | some (.jstr t) =>
                if strIncludes t "MiniProfile" then
                  let firstName := obj.strField "firstName"
                  let lastName := obj.strField "lastName"
                  let publicIdentifier := obj.strField "publicIdentifier"
                  if publicIdentifier ≠ "" then
                    some { post_author_name := jsTrim (firstName ++ " " ++ lastName),
                           post_author_profile :=
                             "https://www.linkedin.com/in/" ++ publicIdentifier }
                  else none
                else none
              | _ => none)
          | _ => none) with
      | some info => info
      | none => { post_author_name := "", post_author_profile := "" }

/-- Replace the first occurrence of a literal pattern by nothing
(JavaScript `.replace('lit', '')` with a plain-string pattern). -/
def removeFirstSub (pat : List Char) : List Char → List Char
  | [] => []
  | c :: cs =>
    if !pat.isEmpty && listPre pat (c :: cs) then cs.drop (pat.length - 1)
    else c :: removeFirstSub pat cs

/-- Permalink selector list of `extractPostUrlUniversal`. -/
def postLinkSelectors : List String :=
  [".feed-shared-actor__sub-description a", ".update-components-actor__sub-description a",
   "time[datetime]"]

/-- Embeds `extractPostUrlUniversal`: first selector with a truthy `href`,
else a URL constructed from an `urn:li:activity:` post id, else the current
location. -/
def extractPostUrlUniversalE (env : JsEnv) (postContainer : Option Elem) :
    Except JsErr String := do
  let e ← deref postContainer
  match postLinkSelectors.findSome? (fun selector =>
    match e.querySelector selector with
    | some linkElement => strToOpt (linkElement.prop "href")
    | none => none) with
  | some url => pure url
  | none => do
    let postId ← getPostIdE env postContainer
    if strIncludes postId "urn:li:activity:" then
      let activityId := (removeFirstSub "urn:li:activity:".toList postId.toList).asString
      pure ("https://www.linkedin.com/feed/update/" ++ activityId ++ "/")
    else
      pure env.locationHref

/-- Timestamp selector list of `extractTimestampUniversal`. -/
def timestampSelectors : List String :=
  [".feed-shared-actor__sub-description time", ".update-components-actor__sub-description time",
   "time[datetime]"]

/-- Embeds `extractTimestampUniversal`: per selector, the `datetime`
attribute when truthy, else the trimmed text when truthy; falls back to the
capture time. -/
def extractTimestampUniversalE (env : JsEnv) (postContainer : Option Elem) :
    Except JsErr String := do
  let e ← deref postContainer
  match timestampSelectors.findSome? (fun selector =>
    match e.querySelector selector with
    | some timeElement =>
      match strToOpt (optStr (timeElement.getAttribute "datetime")) with
      | some datetime => some datetime
      | none => strToOpt (jsTrim (optStr timeElement.textContent))
    | none => none) with
  | some ts => pure ts
  | none => pure env.nowIso

/-- Embeds the body of `extractPostData` (without its outer `try`/`catch`):
id, content, author, URL, timestamp, media type, then the required-field
check returning `null` for missing content or author. -/
def extractPostDataBody (env : JsEnv) (postContainer : Option Elem) :
    Except JsErr (Option PostData) := do
  let postId ← getPostIdE env postContainer
  let content := extractComprehensivePostContent postContainer
  let authorInfo := extractPostAuthorInfoUniversal env postContainer
  let postUrl ← extractPostUrlUniversalE env postContainer
  let timestamp ← extractTimestampUniversalE env postContainer
  let mediaType := determineMediaType content
  if content.length = 0 || authorInfo.post_author_name = "" then
    pure none
  else
    pure (some
      { postId := postId, content := content, author := authorInfo.post_author_name,
        authorUrl := authorInfo.post_author_profile, authorTitle := none,
        postUrl := postUrl, timestamp := timestamp, mediaType := mediaType,
        isCompanyPost := false, companyName := none })

/-- Embeds `extractPostData`: the body wrapped in
`try { … } catch { return null }`. -/
def extractPostDataE (env : JsEnv) (postContainer : Option Elem) :
    Except JsErr (Option PostData) :=
  catchNull (extractPostDataBody env postContainer)

/-- Value-level `extractPostData` (the wrapper never lets an error escape). -/
def extractPostData (env : JsEnv) (postContainer : Option Elem) : Option PostData :=
  match extractPostDataE env postContainer with
  | .ok v => v
  | .error _ => none

/-- Embeds `validatePostData`: requires a truthy `postId` and `author`, a
non-empty `content` array, and at least one item with non-blank `data`. -/
def validatePostData (data? : Option PostData) : Bool :=
  match data? with
  | none => false
  | some data =>
    if data.postId = "" || data.author = "" then false
    else if data.content.length = 0 then false
    else if !(data.content.any (fun item => item.data ≠ "" && (jsTrim item.data).length > 0)) then
      false
    else true

end PostExtractor

/-! ## Messaging DOM helpers (`messaging-dom.ts`; the module is staged as
the second segment of `src/utils/config-checker.ts`, lines 45-453) -/

/-- Field names of the `MESSAGING_SELECTORS` registry entries the embedded
functions read. -/
structure MessagingSelectors where
  messagingContainer : String
  messageComposer : String
  messageTextArea : String
  messageText : String
  messageContent : String
  messageThread : String
  sentMessage : String
  messageTimestamp : String
  conversationHeader : String
  recipientName : String
  conversationTitle : String
  recipientProfile : String
  imageAttachment : String
  documentAttachment : String
  linkAttachment : String
  voiceMessage : String
  videoMessage : String
  groupConversationHeader : String
  groupMembersList : String
  groupMember : String
  messageAttachment : String
  sendButton : String
  sendButtonEnabled : String
  miniChatSendButton : String
  profileMessageSend : String

/-- Embeds the `MESSAGING_SELECTORS` constant of `messaging-dom.ts`. -/
def MESSAGING_SELECTORS : MessagingSelectors where
  messagingContainer := ".application-outlet, .msg-overlay-list-bubble, .msg-thread"
  messageComposer := ".msg-form__contenteditable, .msg-form__msg-content-container"
  messageTextArea := ".msg-form__contenteditable[contenteditable=\"true\"]"
  messageText := ".msg-s-event-listitem__message, .msg-s-message__body"
  messageContent := ".msg-s-event-listitem__body, .msg-s-message-group__content"
  messageThread := ".msg-s-message-list, .msg-thread__messages"
  sentMessage := ".msg-s-message-list__event--outgoing, .msg-s-event--outgoing, .msg-s-event-listitem:has(.msg-s-event-with-indicator__sending-indicator--sent)"
  messageTimestamp := ".msg-s-message-list__time-heading, .msg-s-event__timestamp"
  conversationHeader := ".msg-thread-header, .msg-overlay-bubble-header, .msg-overlay-conversation-bubble-header"
  recipientName := ".msg-entity-lockup__entity-title, .msg-thread-header__title, .msg-overlay-bubble-header__title"
  conversationTitle := ".msg-thread-header__title, .msg-overlay-bubble-header__title"
  recipientProfile := ".msg-entity-lockup__link, .msg-thread-header__profile-link"
  imageAttachment := ".msg-s-event-listitem__image, .msg-attachment__image"
  documentAttachment := ".msg-s-event-listitem__document, .msg-attachment__document"
  linkAttachment := ".msg-s-event-listitem__link-preview, .msg-attachment__link"
  voiceMessage := ".msg-s-event-listitem--voice, .msg-voice-message"
  videoMessage := ".msg-s-event-listitem--video, .msg-video-message"
  groupConversationHeader := ".msg-thread-header--group"
  groupMembersList := ".msg-thread-header__participants"
  groupMember := ".msg-participant"
  messageAttachment := ".msg-s-event-listitem__attachment, .msg-attachment"
  sendButton := ".msg-form__send-button, button[data-control-name=\"send\"]"
  sendButtonEnabled := ".msg-form__send-button:not([disabled])"
  miniChatSendButton := ".msg-overlay-bubble .msg-form__send-button"
  profileMessageSend := ".msg-s-modal .msg-form__send-button"

/-- Scan for the regexp `/thread\/([^/]+)/` over a URL: the first
`thread/` occurrence followed by at least one non-slash character
(`extractRecipientInfo` of the message extractor matches it against
`window.location.href`). -/
def matchThreadAux : List Char → Option (List Char)
  | [] => none
  | c :: cs =>
    if listPre "thread/".toList (c :: cs) then
      let rest := (c :: cs).drop 7
      let seg := rest.takeWhile (fun x => x ≠ '/')
      if seg.length > 0 then some seg else matchThreadAux cs
    else matchThreadAux cs

/-- String wrapper for `matchThreadAux`. -/
def matchThreadSeg (url : String) : Option String :=
  (matchThreadAux url.toList).map List.asString

/-- Scan for the regexp `/\/messaging\/thread\/([^/]+)/` over the location
pathname (`getConversationId`): the first `/messaging/thread/` occurrence
followed by at least one non-slash character. -/
def matchMessagingThreadAux : List Char → Option (List Char)
  | [] => none
  | c :: cs =>
    if listPre "/messaging/thread/".toList (c :: cs) then
      let rest := (c :: cs).drop 18
      let seg := rest.takeWhile (fun x => x ≠ '/')
      if seg.length > 0 then some seg else matchMessagingThreadAux cs
    else matchMessagingThreadAux cs

/-- String wrapper for `matchMessagingThreadAux`. -/
def matchMessagingThreadSeg (pathname : String) : Option String :=
  (matchMessagingThreadAux pathname.toList).map List.asString

/-- Embeds `getMessageId`: `data-id || data-message-id || id`, else the
generated `msg-${Date.now()}-${random}` fallback; dereferences the
element. -/
def getMessageIdE (env : JsEnv) (messageElement? : Option Elem) : Except JsErr String := do
  let e ← deref messageElement?
  let dataId := jsOr (optStr (e.getAttribute "data-id"))
    (jsOr (optStr (e.getAttribute "data-message-id")) (optStr (e.getAttribute "id")))
  pure (jsOr dataId ("msg-" ++ toString env.nowMs ++ "-" ++ env.randSuffix))

/-- Embeds `getConversationId`: `data-conversation-id || data-thread-id ||
data-id` off the closest thread container of the element (else any
document-wide one), then the `/messaging/thread/` pathname segment, then the generated
fallback.  The element parameter is optional-chained in the source, so the
function is total. -/
def getConversationId (env : JsEnv) (fromElement? : Option Elem) : String :=
  let container := optOrElse
    (fromElement?.bind (fun e => e.closestSel ".msg-thread, .msg-overlay-bubble, .msg-s-modal"))
    (env.document.querySelector ".msg-thread, .msg-overlay-bubble, .msg-s-modal")
  let dataId :=
    match container with
    | some c => jsOr (optStr (c.getAttribute "data-conversation-id"))
        (jsOr (optStr (c.getAttribute "data-thread-id")) (optStr (c.getAttribute "data-id")))
    | none => ""
  if dataId ≠ "" then dataId
  else
    match matchMessagingThreadSeg env.locationPathname with
    | some seg => seg
    | none => "conv-" ++ toString env.nowMs ++ "-" ++ env.randSuffix

/-- Embeds `getConversationContext`: mini-chat bubble, then profile modal,
then narrow viewport, else the main messaging surface. -/
def getConversationContext (env : JsEnv) : String :=
  if (env.document.querySelector ".msg-overlay-bubble").isSome then "mini_chat"
  else if (env.document.querySelector ".msg-s-modal, .msg-thread-modal").isSome then
    "profile_modal"
  else if env.innerWidth < 768 then "mobile"
  else "main_messaging"

/-- The four additional header selectors `findConversationHeader` tries when
the document-wide header lookup fails. -/
def additionalHeaderSelectors : List String :=
  ["header.msg-overlay-conversation-bubble-header",
   ".msg-overlay-conversation-bubble-header",
   "header[class*=\"msg-overlay\"]",
   "header[class*=\"bubble-header\"]"]

/-- Embeds `findConversationHeader`: the header inside the conversation
container of the given element, else the document-wide header, else the first match
of the four additional header selectors. -/
def findConversationHeader (env : JsEnv) (fromElement? : Option Elem) : Option Elem :=
  let fromContainer? :=
    (fromElement?.bind (fun e => e.closestSel ".msg-thread, .msg-overlay-bubble, .msg-s-modal")).bind
      (fun container => container.querySelector MESSAGING_SELECTORS.conversationHeader)
  match fromContainer? with
  | some header => some header
  | none =>
    match env.document.querySelector MESSAGING_SELECTORS.conversationHeader with
    | some header => some header
    | none =>
      additionalHeaderSelectors.findSome? (fun selector => env.document.querySelector selector)

/-- Embeds `isGroupConversation`: a group header or members list inside the
given element (else the document-wide conversation header), or a `group`
occurrence in its text content; `false` when no element is found. -/
def isGroupConversation (env : JsEnv) (conversationElement? : Option Elem) : Bool :=
  match optOrElse conversationElement?
      (env.document.querySelector MESSAGING_SELECTORS.conversationHeader) with
  | none => false
  | some element =>
    (element.querySelector MESSAGING_SELECTORS.groupConversationHeader).isSome ||
    (element.querySelector MESSAGING_SELECTORS.groupMembersList).isSome ||
    (match element.textContent with
     | some t => strIncludes t "group"
     | none => false)

/-- Embeds `determineMessageType`: image, voice, video, document and link
attachment markup decide in that order; the multi-attachment `mixed` check
that follows can only see zero present attachments after those early
returns; else `text`. -/
def determineMessageType (msgEl : Elem) : String :=
  if (msgEl.querySelector MESSAGING_SELECTORS.imageAttachment).isSome then "image"
  else if (msgEl.querySelector MESSAGING_SELECTORS.voiceMessage).isSome then "voice"
  else if (msgEl.querySelector MESSAGING_SELECTORS.videoMessage).isSome then "video"
  else if (msgEl.querySelector MESSAGING_SELECTORS.documentAttachment).isSome then "document"
  else if (msgEl.querySelector MESSAGING_SELECTORS.linkAttachment).isSome then "link"
  else
    let attachmentTypes := ([msgEl.querySelector MESSAGING_SELECTORS.imageAttachment,
      msgEl.querySelector MESSAGING_SELECTORS.documentAttachment,
      msgEl.querySelector MESSAGING_SELECTORS.linkAttachment] : List (Option Elem)).filterMap id
    if attachmentTypes.length > 1 then "mixed" else "text"

/-! ## Message data model and extractor (`src/unnamed/part_004`,
`message-extractor.ts`) -/

/-- One attachment of a message. -/
structure MessageAttachment where
  type : String
  url : Option String := none
  title : Option String := none
  description : Option String := none
  size : Option String := none
deriving DecidableEq, Repr

/-- Structured record of a captured message. -/
structure MessageData where
  messageId : String
  conversationId : String
  recipientName : String
  recipientProfileUrl : String
  messageText : String
  timestamp : String
  messageType : String
  attachments : List MessageAttachment
  isGroupMessage : Bool
  groupMembers : Option (List String)
  conversationContext : String
deriving DecidableEq, Repr

/-- The `Partial<MessageData>` record built by `extractPreSendMessageData`
(every field of the return object literal; `messageId` is absent). -/
structure PreSendMessageData where
  conversationId : String
  recipientName : String
  recipientProfileUrl : String
  messageText : String
  timestamp : String
  messageType : String
  attachments : List MessageAttachment
  isGroupMessage : Bool
  conversationContext : String
deriving DecidableEq, Repr

namespace MessageExtractor

/-- Recipient name/profile pair of the message extractor. -/
structure RecipientInfo where
  recipientName : String
  recipientProfileUrl : String
deriving DecidableEq, Repr

/-- Composer text-area selector cascade of `extractMessageText`. -/
def textAreaSelectors : List String :=
  [".msg-form__contenteditable.t-14.t-black--light.t-normal.flex-grow-1.full-height.notranslate[contenteditable=\"true\"]",
   ".msg-form__contenteditable[contenteditable=\"true\"]",
   MESSAGING_SELECTORS.messageTextArea,
   ".msg-form__contenteditable",
   "[contenteditable=\"true\"]",
   ".msg-form__msg-content-container [contenteditable]"]

/-- Embeds the per-text-area extraction of `extractMessageText`: paragraph
texts, then `textContent`/`data-text`, then `innerText`, then the UI-label
deletion chain with final trim. -/
def composerTextFromTextArea (textArea : Elem) : String :=
  let text := String.intercalate " "
    ((textArea.querySelectorAll "p").filterMap (fun p =>
      match p.textContent with
      | some t => let t := jsTrim t; if t = "" then none else some t
      | none => none))
  let text :=
    if text = "" then
      jsOr (optStr textArea.textContent) (optStr (textArea.getAttribute "data-text"))
    else text
  let text := if text = "" then optStr textArea.innerText else text
  stripUiLabels text

/-- Embeds the composer branch of `extractMessageText`: first selector whose
text area yields non-empty cleaned text wins; the result is sanitized. -/
def extractComposerText (composer : Elem) : Option String :=
  textAreaSelectors.findSome? (fun selector =>
    match composer.querySelector selector with
    | some textArea =>
      let text := composerTextFromTextArea textArea
      if text ≠ "" then some (sanitizeMessageText text) else none
    | none => none)

/-- Sent-message text selector cascade of `extractMessageText`. -/
def messageTextSelectors : List String :=
  [".msg-s-event-listitem__body.t-14.t-black--light.t-normal",
   ".msg-s-event-listitem__body",
   "p.msg-s-event-listitem__body",
   MESSAGING_SELECTORS.messageText,
   MESSAGING_SELECTORS.messageContent,
   ".msg-s-event-listitem__message-body",
   ".msg-s-message-bubble__content",
   ".artdeco-entity-lockup__caption",
   ".msg-s-event__content p",
   ".msg-s-event__content"]

/-- Embeds the sent-message branch of `extractMessageText` together with its
final fallback to the whole element text. -/
def messageElementText (messageElement : Elem) : String :=
  match messageTextSelectors.findSome? (fun selector =>
    match messageElement.querySelector selector with
    | some textElement =>
      let text := jsOr (jsTrim (optStr textElement.textContent))
        (jsTrim (textElement.prop "innerHTML"))
      if text ≠ "" then some (sanitizeMessageText text) else none
    | none => none) with
  | some t => t
  | none => sanitizeMessageText (jsTrim (optStr messageElement.textContent))

/-- Embeds `extractMessageText`: composer branch when a composer is given
(and produced text), else the sent-message branch, which dereferences the
message element. -/
def extractMessageTextE (messageElement? composerElement? : Option Elem) :
    Except JsErr String :=
  let fromComposer :=
    match composerElement? with
    | some composer => extractComposerText composer
    | none => none
  match fromComposer with
  | some t => .ok t
  | none => do
    let msgEl ← deref messageElement?
    pure (messageElementText msgEl)

/-- Recipient-name selector cascade of `extractRecipientInfo`. -/
def nameSelectors : List String :=
  [".msg-overlay-bubble-header__title .t-14.t-bold.hoverable-link-text.t-black",
   ".msg-overlay-bubble-header__title span.t-14.t-bold.hoverable-link-text",
   ".msg-overlay-bubble-header__title a span",
   ".msg-overlay-bubble-header__title .hoverable-link-text",
   MESSAGING_SELECTORS.recipientName,
   MESSAGING_SELECTORS.conversationTitle,
   ".msg-entity-lockup__entity-title",
   ".msg-thread-header__title",
   ".msg-overlay-bubble-header__title",
   ".msg-overlay-bubble-header__title span"]

/-- Profile-link selector cascade of `extractRecipientInfo`. -/
def profileSelectors : List String :=
  [MESSAGING_SELECTORS.recipientProfile,
   ".msg-entity-lockup__link",
   ".msg-thread-header__profile-link",
   "a[href*=\"/in/\"]",
   "a[href*=\"ACoA\"]"]

/-- ASCII `[A-Z]`. -/
def isUpperAscii (c : Char) : Bool := 'A' ≤ c && c ≤ 'Z'

/-- ASCII `[a-z]`. -/
def isLowerAscii (c : Char) : Bool := 'a' ≤ c && c ≤ 'z'

/-- Character class `[A-Z-]`. -/
def isUpperHyphen (c : Char) : Bool := isUpperAscii c || c = '-'

/-- Fuelled Kleene star for the `(?:, [A-Z-]+)*` tail of the name regexp;
each iteration consumes at least three characters, so list length is enough
fuel. -/
def matchNameTail : Nat → List Char → List Char × List Char
  | 0, l => ([], l)
  | Nat.succ fuel, l =>
    match l with
    | ',' :: ' ' :: rest =>
      let ups := rest.takeWhile isUpperHyphen
      if ups.length > 0 then
        let tr := matchNameTail fuel (rest.drop ups.length)
        (',' :: ' ' :: (ups ++ tr.1), tr.2)
      else ([], l)
    | _ => ([], l)

/-- Match the name regexp `[A-Z][a-z]+ [A-Z][a-z]+(?:, [A-Z-]+)*` at the
head of the list, returning the matched text. -/
def matchNameAt (l : List Char) : Option (List Char) :=
  match l with
  | [] => none
  | c0 :: rest0 =>
    if isUpperAscii c0 then
      let low1 := rest0.takeWhile isLowerAscii
      let rest1 := rest0.drop low1.length
      if low1.length > 0 then
        match rest1 with
        | ' ' :: c1 :: rest3 =>
          if isUpperAscii c1 then
            let low2 := rest3.takeWhile isLowerAscii
            let rest4 := rest3.drop low2.length
            if low2.length > 0 then
              let tr := matchNameTail rest4.length rest4
              some (c0 :: (low1 ++ [' ', c1] ++ low2 ++ tr.1))
            else none
          else none
        | _ => none
      else none
    else none

/-- Leftmost match of the name regexp
`/([A-Z][a-z]+ [A-Z][a-z]+(?:, [A-Z-]+)*)/` anywhere in the list. -/
def findNameMatch : List Char → Option String
  | [] => none
  | c :: cs =>
    match matchNameAt (c :: cs) with
    | some m => some m.asString
    | none => findNameMatch cs

/-- Embeds `extractRecipientInfo` (message extractor): conversation header
lookup, the name selector cascade, the four alternative name extraction
methods, the profile-link cascade, and the thread-URL profile fallback. -/
def extractRecipientInfo (env : JsEnv) (fromElement? : Option Elem) : RecipientInfo :=
  match findConversationHeader env fromElement? with
  | none => { recipientName := "", recipientProfileUrl := "" }
  | some conversationHeader =>
    let recipientName := optStr (nameSelectors.findSome? (fun selector =>
      match conversationHeader.querySelector selector with
      | some nameElement => strToOpt (jsTrim (optStr nameElement.textContent))
      | none => none))
    let recipientName :=
      if recipientName = "" then
        jsOr (trimTextOf (conversationHeader.querySelector "a[href*=\"/in/\"] span"))
          (jsOr (trimTextOf (conversationHeader.querySelector "h2.msg-overlay-bubble-header__title"))
            (jsOr (optStr (((conversationHeader.querySelector "[title*=\",\"]").bind
                (fun t => t.getAttribute "title")).map jsTrim))
              (optStr (findNameMatch (optStr conversationHeader.textContent).toList))))
      else recipientName
    let recipientProfileUrl := optStr (profileSelectors.findSome? (fun selector =>
      match conversationHeader.querySelector selector with
      | some profileElement => strToOpt (profileElement.prop "href")
      | none => none))
    let recipientProfileUrl :=
      if recipientProfileUrl = "" && recipientName ≠ "" then
        match matchThreadSeg env.locationHref with
        | some seg => "https://www.linkedin.com/in/" ++ seg ++ "/"
        | none => recipientProfileUrl
      else recipientProfileUrl
    { recipientName := recipientName, recipientProfileUrl := recipientProfileUrl }

/-- Timestamp selector cascade of `extractMessageTimestamp`. -/
def timestampSelectors : List String :=
  [MESSAGING_SELECTORS.messageTimestamp,
   ".msg-s-message-list__time-heading time",
   ".msg-s-event__timestamp",
   "time[datetime]",
   ".msg-timestamp"]

/-- Embeds `extractMessageTimestamp`: the cascade on the message element,
then on its closest event container, then the capture time. -/
def extractMessageTimestamp (env : JsEnv) (messageElement : Elem) : String :=
  match timestampSelectors.findSome? (fun selector =>
    match messageElement.querySelector selector with
    | some timestampElement =>
      match strToOpt (optStr (timestampElement.getAttribute "datetime")) with
      | some datetime => some datetime
      | none => strToOpt (jsTrim (optStr timestampElement.textContent))
    | none => none) with
  | some ts => ts
  | none =>
    match messageElement.closestSel ".msg-s-message-list__event, .msg-s-event" with
    | some messageContainer =>
      match timestampSelectors.findSome? (fun selector =>
        match messageContainer.querySelector selector with
        | some timestampElement =>
          strToOpt (jsOr (optStr (timestampElement.getAttribute "datetime"))
            (jsTrim (optStr timestampElement.textContent)))
        | none => none) with
      | some ts => ts
      | none => env.nowIso
    | none => env.nowIso

/-- Embeds `extractImageAttachments`. -/
def extractImageAttachments (messageElement : Elem) : List MessageAttachment :=
  (messageElement.querySelectorAll MESSAGING_SELECTORS.imageAttachment).filterMap (fun img =>
    let src := img.prop "src"
    if src ≠ "" && !(strIncludes src "data:") && !(strIncludes src "blob:") then
      some { type := "image", url := some src,
             title := strToOpt (jsOr (img.prop "alt") (img.prop "title")),
             description := some "Image attachment" }
    else none)

/-- Embeds `extractDocumentAttachments`. -/
def extractDocumentAttachments (messageElement : Elem) : List MessageAttachment :=
  (messageElement.querySelectorAll MESSAGING_SELECTORS.documentAttachment).filterMap (fun doc =>
    let titleElement := doc.querySelector ".msg-attachment__title, .document-title"
    let linkElement := doc.querySelector "a[href]"
    let sizeElement := doc.querySelector ".msg-attachment__size, .document-size"
    if titleElement.isSome || linkElement.isSome then
      some { type := "document", url := strToOpt (propOf linkElement "href"),
             title := strToOpt (trimTextOf titleElement),
             description := some "Document attachment",
             size := strToOpt (trimTextOf sizeElement) }
    else none)

/-- Embeds `extractLinkAttachments`. -/
def extractLinkAttachments (messageElement : Elem) : List MessageAttachment :=
  (messageElement.querySelectorAll MESSAGING_SELECTORS.linkAttachment).filterMap (fun link =>
    let titleElement := link.querySelector ".msg-attachment__title, .link-preview-title"
    let descElement := link.querySelector ".msg-attachment__description, .link-preview-description"
    let urlElement := link.querySelector "a[href]"
    if titleElement.isSome || urlElement.isSome then
      some { type := "link", url := strToOpt (propOf urlElement "href"),
             title := strToOpt (trimTextOf titleElement),
             description := some (jsOr (trimTextOf descElement) "Link attachment") }
    else none)

/-- Embeds `extractVoiceAttachments` (every matched element yields an
attachment). -/
def extractVoiceAttachments (messageElement : Elem) : List MessageAttachment :=
  (messageElement.querySelectorAll MESSAGING_SELECTORS.voiceMessage).map (fun voice =>
    let audioElement := voice.querySelector "audio"
    let durationElement := voice.querySelector ".voice-duration, .msg-voice-duration"
    { type := "voice", url := strToOpt (propOf audioElement "src"),
      title := some "Voice message",
      description := some ("Voice message" ++
        (match durationElement with
         | some d => " (" ++ jsTrim (optStr d.textContent) ++ ")"
         | none => "")) })

/-- Embeds `extractVideoAttachments` (every matched element yields an
attachment). -/
def extractVideoAttachments (messageElement : Elem) : List MessageAttachment :=
  (messageElement.querySelectorAll MESSAGING_SELECTORS.videoMessage).map (fun video =>
    let videoElement := video.querySelector "video"
    let thumbnailElement := video.querySelector "img"
    { type := "video",
      url := strToOpt (jsOr (propOf videoElement "src")
        (jsOr (propOf videoElement "currentSrc") (propOf thumbnailElement "src"))),
      title := some "Video message", description := some "Video attachment" })

/-- Embeds `extractMessageAttachments`: images, documents, links, voice,
video, in source order. -/
def extractMessageAttachments (messageElement : Elem) : List MessageAttachment :=
  extractImageAttachments messageElement ++ extractDocumentAttachments messageElement ++
  extractLinkAttachments messageElement ++ extractVoiceAttachments messageElement ++
  extractVideoAttachments messageElement

/-- Embeds `extractGroupMembers`. -/
def extractGroupMembers (env : JsEnv) (fromElement? : Option Elem) : List String :=
  match findConversationHeader env fromElement? with
  | none => []
  | some conversationHeader =>
    (conversationHeader.querySelectorAll MESSAGING_SELECTORS.groupMember).filterMap (fun member =>
      match member.querySelector ".msg-participant__name, .entity-name" with
      | some nameElement => strToOpt (jsTrim (optStr nameElement.textContent))
      | none => none)

/-- Embeds the body of `extractMessageData` (without its outer
`try`/`catch`): ids, context, text, recipient, timestamp, attachments,
type, group info, then the two validation guards returning `null`. -/
def extractMessageDataBody (env : JsEnv) (messageElement? composerElement? : Option Elem) :
    Except JsErr (Option MessageData) := do
  let messageId ← getMessageIdE env messageElement?
  let conversationId := getConversationId env messageElement?
  let conversationContext := getConversationContext env
  let messageText ← extractMessageTextE messageElement? composerElement?
  let recipientInfo := extractRecipientInfo env messageElement?
  let msgEl ← deref messageElement?
  let timestamp := extractMessageTimestamp env msgEl
  let attachments := extractMessageAttachments msgEl
  let messageType := determineMessageType msgEl
  let isGroup := isGroupConversation env none
  let groupMembers := if isGroup then some (extractGroupMembers env messageElement?) else none
  if (messageText = "" || jsTrim messageText = "") && attachments.length = 0 then
    pure none
  else if recipientInfo.recipientName = "" then
    pure none
  else
    pure (some
      { messageId := messageId, conversationId := conversationId,
        recipientName := recipientInfo.recipientName,
        recipientProfileUrl := recipientInfo.recipientProfileUrl,
        messageText := messageText, timestamp := timestamp, messageType := messageType,
        attachments := attachments, isGroupMessage := isGroup,
        groupMembers := groupMembers, conversationContext := conversationContext })

/-- Embeds `extractMessageData`: the body wrapped in
`try { … } catch { return null }`. -/
def extractMessageDataE (env : JsEnv) (messageElement? composerElement? : Option Elem) :
    Except JsErr (Option MessageData) :=
  catchNull (extractMessageDataBody env messageElement? composerElement?)

/-- Value-level `extractMessageData`. -/
def extractMessageData (env : JsEnv) (messageElement? composerElement? : Option Elem) :
    Option MessageData :=
  match extractMessageDataE env messageElement? composerElement? with
  | .ok v => v
  | .error _ => none

/-- Embeds `validateMessageData`: requires truthy `messageId`,
`conversationId` and `recipientName`, and message text or at least one
attachment. -/
def validateMessageData (data? : Option MessageData) : Bool :=
  match data? with
  | none => false
  | some data =>
    if data.messageId = "" || data.conversationId = "" || data.recipientName = "" then false
    else if data.messageText = "" && data.attachments.length = 0 then false
    else true

/-- Text-input selector cascade of `extractPreSendMessageData`. -/
def textInputSelectors : List String :=
  [".msg-form__contenteditable[contenteditable=\"true\"]",
   ".msg-form__contenteditable",
   "[contenteditable=\"true\"]",
   "div[role=\"textbox\"]"]

/-- Embeds the body of `extractPreSendMessageData` (without its outer
`try`/`catch`): text-input cascade, `extractMessageText` fallback,
recipient/context/conversation data, the empty-content guard, and the
pre-send record. -/
def extractPreSendMessageDataBody (env : JsEnv) (composerElement? : Option Elem) :
    Except JsErr (Option PreSendMessageData) := do
  let composer ← deref composerElement?
  let messageText := optStr (textInputSelectors.findSome? (fun selector =>
    match composer.querySelector selector with
    | some textInput =>
      let t := String.intercalate " "
        ((textInput.querySelectorAll "p").filterMap (fun p =>
          match p.textContent with
          | some t0 => let t0 := jsTrim t0; if t0 = "" then none else some t0
          | none => none))
      let t := if t = "" then jsTrim (optStr textInput.textContent) else t
      let t := if t = "" then jsTrim (optStr textInput.innerText) else t
      if t ≠ "" then some t else none
    | none => none))
  let messageText ←
    if messageText = "" then extractMessageTextE (some composer) (some composer)
    else pure messageText
  let recipientInfo := extractRecipientInfo env (some composer)
  let conversationContext := getConversationContext env
  let conversationId := getConversationId env (some composer)
  let isGroup := isGroupConversation env none
  if (messageText = "" || jsTrim messageText = "") &&
      (composer.querySelector MESSAGING_SELECTORS.messageAttachment).isNone then
    pure none
  else
    pure (some
      { conversationId := conversationId, recipientName := recipientInfo.recipientName,
        recipientProfileUrl := recipientInfo.recipientProfileUrl,
        messageText := messageText, timestamp := env.nowIso, messageType := "text",
        attachments := [], isGroupMessage := isGroup,
        conversationContext := conversationContext })

/-- Embeds `extractPreSendMessageData`: the body wrapped in
`try { … } catch { return null }`. -/
def extractPreSendMessageDataE (env : JsEnv) (composerElement? : Option Elem) :
    Except JsErr (Option PreSendMessageData) :=
  catchNull (extractPreSendMessageDataBody env composerElement?)

/-- Value-level `extractPreSendMessageData`. -/
def extractPreSendMessageData (env : JsEnv) (composerElement? : Option Elem) :
    Option PreSendMessageData :=
  match extractPreSendMessageDataE env composerElement? with
  | .ok v => v
  | .error _ => none

end MessageExtractor

/-! ## Connection request data model and DOM utilities
(`src/utils/connection-request-dom.ts`) -/

/-- Structured record of a connection request.  The TypeScript record is
duck-typed with optional string fields; an absent (`undefined`) optional
string is modelled as `""`, which is interchangeable with it under every
truthiness test the source performs. -/
structure ConnectionRequestData where
  requestId : String
  recipientName : String
  recipientProfileUrl : String
  recipientTitle : String := ""
  recipientCompany : String := ""
  customMessage : String
  timestamp : String
  requestContext : String
  hasCustomMessage : Bool
  invitationLimitRemaining : String := ""
deriving DecidableEq, Repr

/-- The all-absent record standing for the `{}` base object. -/
def emptyConnectionRequestData : ConnectionRequestData where
  requestId := ""
  recipientName := ""
  recipientProfileUrl := ""
  customMessage := ""
  timestamp := ""
  requestContext := ""
  hasCustomMessage := false

namespace ConnectionDom

/-- Recipient information (`RecipientInfo` of connection-request-dom);
absent optionals are `""`. -/
structure RecipientInfo where
  name : String
  profileUrl : String
  title : String := ""
  company : String := ""
deriving DecidableEq, Repr

/-- The selector-registry entries of `CONNECTION_REQUEST_SELECTORS` that the
embedded functions read. -/
def connectionModalSel : String := "[data-test-modal][role=\"dialog\"].send-invite"

/-- Selector `messageTextArea`. -/
def messageTextAreaSel : String := "#custom-message, .connect-button-send-invite__custom-message"

/-- Selector `profileHeader`. -/
def profileHeaderSel : String := ".pv-top-card, .profile-top-card"

/-- Selector `profileName`. -/
def profileNameSel : String := ".text-heading-xlarge, .pv-top-card--list-bullet h1"

/-- Selector `profileTitle`. -/
def profileTitleSel : String := ".text-body-medium, .pv-top-card--list-bullet .text-body-medium"

/-- Selector `searchResultCard`. -/
def searchResultCardSel : String := ".reusable-search__result-container, .search-result__wrapper"

/-- Selector `searchResultName`. -/
def searchResultNameSel : String := ".entity-result__title-text a, .actor-name"

/-- Selector `searchResultTitle`. -/
def searchResultTitleSel : String := ".entity-result__primary-subtitle, .subline-level-1"

/-- Selector `connectButton`. -/
def connectButtonSel : String :=
  "button[aria-label*=\"Invite\"][aria-label*=\"to connect\"], .artdeco-button--2[aria-label*=\"Connect\"]"

/-- Selector `pymkCard`. -/
def pymkCardSel : String := ".ember-view.artdeco-card, .discover-cohort-card"

/-- Selector `pymkName`. -/
def pymkNameSel : String := ".discover-person-card__name, .actor-name-with-distance"

/-- Selector `pymkTitle`. -/
def pymkTitleSel : String := ".discover-person-card__occupation, .subline-level-1"

/-- Selector `pymkConnectButton`. -/
def pymkConnectButtonSel : String :=
  ".discover-person-card__connect-btn, button[data-control-name*=\"connect\"]"

/-- Selector `invitationLimit`. -/
def invitationLimitSel : String := ".connect-button-send-invite__premium-upsell-message"

/-- Embeds `extractRecipientFromProfile`: name/title from the profile header,
profile URL from the canonical link, falling back to the current location. -/
def extractRecipientFromProfile (env : JsEnv) : RecipientInfo :=
  match env.document.querySelector profileHeaderSel with
  | none => { name := "", profileUrl := "" }
  | some profileHeader =>
    let name := trimTextOf (profileHeader.querySelector profileNameSel)
    let title := trimTextOf (profileHeader.querySelector profileTitleSel)
    let profileUrl :=
      match env.document.querySelector "link[rel=\"canonical\"]" with
      | some canonicalLink => canonicalLink.prop "href"
      | none => env.locationHref
    { name := name, profileUrl := profileUrl, title := title }

/-- Embeds `extractRecipientFromContext`: the first search-result card with a
connect button and a name element, then the first PYMK card likewise, else
the empty record. -/
def extractRecipientFromContext (env : JsEnv) : RecipientInfo :=
  let fromSearch := (env.document.querySelectorAll searchResultCardSel).findSome? (fun card =>
    match card.querySelector connectButtonSel with
    | some _ =>
      match card.querySelector searchResultNameSel with
      | some nameElement =>
        some { name := jsTrim (optStr nameElement.textContent)
             , profileUrl := propOf (card.querySelector "a[href*=\"/in/\"]") "href"
             , title := trimTextOf (card.querySelector searchResultTitleSel) }
      | none => none
    | none => none)
  match fromSearch with
  | some info => info
  | none =>
    let fromPymk := (env.document.querySelectorAll pymkCardSel).findSome? (fun card =>
      match card.querySelector pymkConnectButtonSel with
      | some _ =>
        match card.querySelector pymkNameSel with
        | some nameElement =>
          some { name := jsTrim (optStr nameElement.textContent)
               , profileUrl := propOf (card.querySelector "a[href*=\"/in/\"]") "href"
               , title := trimTextOf (card.querySelector pymkTitleSel) }
        | none => none
      | none => none)
    match fromPymk with
    | some info => info
    | none => { name := "", profileUrl := "" }

/-- Embeds `extractRecipientInfo` (connection-request-dom): profile page
first, then search/PYMK context. -/
def extractRecipientInfo (env : JsEnv) : RecipientInfo :=
  let recipientInfo := extractRecipientFromProfile env
  if recipientInfo.name = "" then extractRecipientFromContext env else recipientInfo

/-- Embeds `extractConnectionMessage`: trimmed value of the custom-message
text area, else `''`. -/
def extractConnectionMessage (env : JsEnv) : String :=
  jsTrim (propOf (env.document.querySelector messageTextAreaSel) "value")

/-- Embeds `determineConnectionRequestContext`: URL and card-presence
cascade. -/
def determineConnectionRequestContext (env : JsEnv) : String :=
  let url := env.locationHref
  if strIncludes url "/in/" && !(strIncludes url "/search/") then "profile_page"
  else if strIncludes url "/search/results/people/" then "search_results"
  else if strIncludes url "/mynetwork/invite-connect/" ||
      (env.document.querySelector ".discover-cohort-card, .people-connect-card").isSome then
    "people_suggestions"
  else if (env.document.querySelector ".discovery-cohort-card").isSome then "pymk"
  else "other"

/-- ASCII digit. -/
def isDigitAscii (c : Char) : Bool := '0' ≤ c && c ≤ '9'

/-- Case-insensitive literal prefix; returns the rest on success. -/
def chompCI : List Char → List Char → Option (List Char)
  | [], l => some l
  | _ :: _, [] => none
  | p :: ps, c :: cs => if p.toLower = c.toLower then chompCI ps cs else none

/-- Chomp `\s+` (at least one whitespace character). -/
def chompWs1 (l : List Char) : Option (List Char) :=
  match l with
  | c :: cs => if isJsWs c then some (cs.dropWhile isJsWs) else none
  | [] => none

/-- Match `/(\d+)\s+personalized\s+invitations?\s+remaining/i` starting at a
digit run; returns the captured digits. -/
def matchInvitationLimit : List Char → Option String
  | [] => none
  | c :: cs =>
    (if isDigitAscii c then
      let ds := (c :: cs).takeWhile isDigitAscii
      let rest := (c :: cs).drop ds.length
      match chompWs1 rest with
      | some r1 =>
        match chompCI "personalized".toList r1 with
        | some r2 =>
          match chompWs1 r2 with
          | some r3 =>
            match chompCI "invitation".toList r3 with
            | some r4 =>
              let r4 := match r4 with
                | x :: xs => if x.toLower = 's' then xs else r4
                | [] => r4
              match chompWs1 r4 with
              | some r5 =>
                match chompCI "remaining".toList r5 with
                | some _ => some ds.asString
                | none => none
              | none => none
            | none => none
          | none => none
        | none => none
      | none => none
    else none).orElse (fun _ => matchInvitationLimit cs)

/-- Embeds `extractInvitationLimits`: the regexp capture from the trimmed
upsell text, else `undefined`. -/
def extractInvitationLimits (env : JsEnv) : Option String :=
  match env.document.querySelector invitationLimitSel with
  | some limitElement =>
    matchInvitationLimit (jsTrim (optStr limitElement.textContent)).toList
  | none => none

/-- Embeds `hasCustomMessage`. -/
def hasCustomMessage (env : JsEnv) : Bool :=
  (extractConnectionMessage env).length > 0

/-- Model of `btoa`: throws `InvalidCharacterError` outside Latin-1.  The
base64 digit string itself is abstracted as the identity on the input — it
only feeds the alphanumeric filter and truncation of a generated id, whose
content no property depends on. -/
def btoaE (s : String) : Except JsErr String :=
  if s.toList.all (fun c => c.val < 256) then .ok s
  else .error (.thrown "InvalidCharacterError")

/-- ASCII `[a-zA-Z0-9]`. -/
def isAsciiAlnum (c : Char) : Bool :=
  ('a' ≤ c && c ≤ 'z') || ('A' ≤ c && c ≤ 'Z') || ('0' ≤ c && c ≤ '9')

/-- Embeds `generateConnectionRequestId`: recipient-derived hash (through
`btoa`, which can throw), timestamp and context. -/
def generateConnectionRequestIdE (env : JsEnv) : Except JsErr String := do
  let recipientInfo := extractRecipientInfo env
  let context := determineConnectionRequestContext env
  let recipientIdentifier := jsOr recipientInfo.profileUrl (jsOr recipientInfo.name "unknown")
  let b ← btoaE recipientIdentifier
  let hash := jsSubstringTo (b.toList.filter isAsciiAlnum).asString 8
  pure ("conn-req-" ++ hash ++ "-" ++ toString env.nowMs ++ "-" ++ context)

/-- Company-information selector cascade of `extractCompanyInfo`. -/
def companySelectors : List String :=
  [".pv-entity__company-summary-info h3", ".entity-result__secondary-subtitle",
   ".discover-person-card__company"]

/-- Embeds `extractCompanyInfo`: first selector whose trimmed text is
non-empty and not `"-"`, else `undefined` (modelled `""`). -/
def extractCompanyInfo (env : JsEnv) : String :=
  optStr (companySelectors.findSome? (fun selector =>
    match env.document.querySelector selector with
    | some element =>
      let companyText := jsTrim (optStr element.textContent)
      if companyText ≠ "" && companyText ≠ "-" then some companyText else none
    | none => none))

/-- Embeds `validateConnectionRequestData` (connection-request-dom):
requires truthy `recipientName` and `requestId`. -/
def validateConnectionRequestData (data : ConnectionRequestData) : Bool :=
  if data.recipientName = "" || data.requestId = "" then false else true

end ConnectionDom

/-! ## Connection request extractor
(`src/utils/connection-request-extractor.ts`) -/

namespace ConnectionExtractor

/-- Embeds the body of `extractPreSendConnectionRequestData` (without its
outer `try`/`catch`): modal presence check, recipient/message/context
extraction, id generation, the missing-recipient guard, and the record. -/
def extractPreSendConnectionRequestDataBody (env : JsEnv) :
    Except JsErr (Option ConnectionRequestData) := do
  let modal := env.document.querySelector ConnectionDom.connectionModalSel
  if modal.isNone then
    pure none
  else do
    let recipientInfo := ConnectionDom.extractRecipientInfo env
    let customMessage := ConnectionDom.extractConnectionMessage env
    let requestContext := ConnectionDom.determineConnectionRequestContext env
    let requestId ← ConnectionDom.generateConnectionRequestIdE env
    if recipientInfo.name = "" then
      pure none
    else
      pure (some
        { requestId := requestId, recipientName := recipientInfo.name,
          recipientProfileUrl := recipientInfo.profileUrl,
          recipientTitle := recipientInfo.title,
          recipientCompany := ConnectionDom.extractCompanyInfo env,
          customMessage := customMessage, timestamp := env.nowIso,
          requestContext := requestContext,
          hasCustomMessage := customMessage.length > 0,
          invitationLimitRemaining := optStr (ConnectionDom.extractInvitationLimits env) })

/-- Embeds `extractPreSendConnectionRequestData`: the body wrapped in
`try { … } catch { return null }`. -/
def extractPreSendConnectionRequestDataE (env : JsEnv) :
    Except JsErr (Option ConnectionRequestData) :=
  catchNull (extractPreSendConnectionRequestDataBody env)

/-- Value-level `extractPreSendConnectionRequestData`. -/
def extractPreSendConnectionRequestData (env : JsEnv) : Option ConnectionRequestData :=
  match extractPreSendConnectionRequestDataE env with
  | .ok v => v
  | .error _ => none

/-- Embeds the body of `extractConfirmedConnectionRequestData` (without its
outer `try`/`catch`): pre-send base (re-extracted when it lacks a recipient),
refreshed timestamp, `||` defaults for every field, and the validation
guard. -/
def extractConfirmedConnectionRequestDataBody (env : JsEnv)
    (preSendData? : Option ConnectionRequestData) :
    Except JsErr (Option ConnectionRequestData) := do
  let baseData := preSendData?.getD emptyConnectionRequestData
  let baseData :=
    if baseData.recipientName = "" then
      (extractPreSendConnectionRequestData env).getD emptyConnectionRequestData
    else baseData
  let requestId ←
    if baseData.requestId = "" then ConnectionDom.generateConnectionRequestIdE env
    else pure baseData.requestId
  let confirmedData : ConnectionRequestData :=
    { requestId := requestId, recipientName := baseData.recipientName,
      recipientProfileUrl := baseData.recipientProfileUrl,
      recipientTitle := baseData.recipientTitle,
      recipientCompany := baseData.recipientCompany,
      customMessage := baseData.customMessage, timestamp := env.nowIso,
      requestContext := jsOr baseData.requestContext
        (ConnectionDom.determineConnectionRequestContext env),
      hasCustomMessage := baseData.hasCustomMessage,
      invitationLimitRemaining := baseData.invitationLimitRemaining }
  if !(ConnectionDom.validateConnectionRequestData confirmedData) then
    pure none
  else
    pure (some confirmedData)

/-- Embeds `extractConfirmedConnectionRequestData`: the body wrapped in
`try { … } catch { return null }`. -/
def extractConfirmedConnectionRequestDataE (env : JsEnv)
    (preSendData? : Option ConnectionRequestData) :
    Except JsErr (Option ConnectionRequestData) :=
  catchNull (extractConfirmedConnectionRequestDataBody env preSendData?)

/-- Value-level `extractConfirmedConnectionRequestData`. -/
def extractConfirmedConnectionRequestData (env : JsEnv)
    (preSendData? : Option ConnectionRequestData) : Option ConnectionRequestData :=
  match extractConfirmedConnectionRequestDataE env preSendData? with
  | .ok v => v
  | .error _ => none

/-- Name selector cascade of `extractRecipientFromContainer`. -/
def containerNameSelectors : List String :=
  [".entity-result__title-text a", ".actor-name", ".discover-person-card__name",
   ".people-connect-card__name", ".search-result__info .actor-name"]

/-- Title selector cascade of `extractRecipientFromContainer`. -/
def containerTitleSelectors : List String :=
  [".entity-result__primary-subtitle", ".subline-level-1",
   ".discover-person-card__occupation", ".people-connect-card__headline"]

/-- Link selector cascade of `extractRecipientFromContainer`. -/
def containerLinkSelectors : List String :=
  ["a[href*=\"/in/\"]", ".app-aware-link[href*=\"/in/\"]"]

/-- Title loop of `extractRecipientFromContainer`: the accumulator keeps the
last assigned value (so a trailing `"-"` candidate is kept when no valid
title follows, exactly as in the source loop). -/
def pickContainerTitle (container : Elem) : List String → String → String
  | [], acc => acc
  | selector :: rest, acc =>
    match container.querySelector selector with
    | some element =>
      let title := jsTrim (optStr element.textContent)
      if title ≠ "" && title ≠ "-" then title else pickContainerTitle container rest title
    | none => pickContainerTitle container rest acc

/-- Embeds `extractRecipientFromContainer`. -/
def extractRecipientFromContainer (container : Elem) : ConnectionDom.RecipientInfo :=
  let name := optStr (containerNameSelectors.findSome? (fun selector =>
    match container.querySelector selector with
    | some element => strToOpt (jsTrim (optStr element.textContent))
    | none => none))
  let title := pickContainerTitle container containerTitleSelectors ""
  let profileUrl := optStr (containerLinkSelectors.findSome? (fun selector =>
    match container.querySelector selector with
    | some element => strToOpt (element.prop "href")
    | none => none))
  { name := name, profileUrl := profileUrl, title := title }

/-- Embeds the body of `extractDirectConnectionRequestData` (without its
outer `try`/`catch`): container lookup from the connect button, recipient
extraction, id generation, and validation. -/
def extractDirectConnectionRequestDataBody (env : JsEnv) (connectButton? : Option Elem) :
    Except JsErr (Option ConnectionRequestData) := do
  let connectButton ← deref connectButton?
  match connectButton.closestSel
      ".reusable-search__result-container, .discover-cohort-card, .people-connect-card, .artdeco-card" with
  | none => pure none
  | some container => do
    let recipientInfo := extractRecipientFromContainer container
    if recipientInfo.name = "" then
      pure none
    else do
      let requestId ← ConnectionDom.generateConnectionRequestIdE env
      let connectionRequestData : ConnectionRequestData :=
        { requestId := requestId, recipientName := recipientInfo.name,
          recipientProfileUrl := recipientInfo.profileUrl,
          recipientTitle := recipientInfo.title,
          recipientCompany := recipientInfo.company,
          customMessage := "", timestamp := env.nowIso,
          requestContext := ConnectionDom.determineConnectionRequestContext env,
          hasCustomMessage := false }
      if !(ConnectionDom.validateConnectionRequestData connectionRequestData) then
        pure none
      else
        pure (some connectionRequestData)

/-- Embeds `extractDirectConnectionRequestData`: the body wrapped in
`try { … } catch { return null }`. -/
def extractDirectConnectionRequestDataE (env : JsEnv) (connectButton? : Option Elem) :
    Except JsErr (Option ConnectionRequestData) :=
  catchNull (extractDirectConnectionRequestDataBody env connectButton?)

/-- Value-level `extractDirectConnectionRequestData`. -/
def extractDirectConnectionRequestData (env : JsEnv) (connectButton? : Option Elem) :
    Option ConnectionRequestData :=
  match extractDirectConnectionRequestDataE env connectButton? with
  | .ok v => v
  | .error _ => none

/-- Embeds `validateConnectionRequestDataComplete`: requires truthy
`requestId`, `recipientName` and `timestamp` — and nothing else; in
particular no custom message or attachment is required. -/
def validateConnectionRequestDataComplete (data? : Option ConnectionRequestData) : Bool :=
  match data? with
  | none => false
  | some data =>
    if data.requestId = "" || data.recipientName = "" || data.timestamp = "" then false
    else true

end ConnectionExtractor

/-! ## Comment tracker post-content extraction (`src/utils/comment-tracker.ts`) -/

namespace CommentTracker

/-- Embeds `extractPostContentUniversal` (comment tracker): joined span/link
texts of the content block (kept only when non-empty), then every `img`
(`src` as-is) and every `video` (`src || poster`), without any empty-data
filtering on media. -/
def extractPostContentUniversal (container? : Option Elem) : List MediaItem :=
  match container? with
  | none => []
  | some container =>
    let contentBlock :=
      optOrElse (container.querySelector ".feed-shared-inline-show-more-text .update-components-text")
        (container.querySelector ".feed-shared-update-v2__description, .update-components-text")
    let text :=
      match contentBlock with
      | none => ""
      | some cb =>
        String.intercalate " " ((cb.querySelectorAll "span, a").filterMap (fun el =>
          match el.textContent with
          | some t => let t := jsTrim t; if t = "" then none else some t
          | none => none))
    let images := (container.querySelectorAll "img").map (fun img =>
      ({ type := .image, data := img.prop "src" } : MediaItem))
    let videos := (container.querySelectorAll "video").map (fun video =>
      ({ type := .video, data := jsOr (video.prop "src") (video.prop "poster") } : MediaItem))
    (if text ≠ "" then [({ type := .text, data := text } : MediaItem)] else []) ++
      images ++ videos

end CommentTracker

/-! ## Recent-capture dedup (identical logic in
`src/utils/message-tracker.ts` and `src/utils/connection-request-tracker.ts`) -/

/-- JS `Map.set`: replace in place when present, else append. -/
def setCapture : List (String × Nat) → String → Nat → List (String × Nat)
  | [], key, now => [(key, now)]
  | kv :: rest, key, now =>
    if kv.1 = key then (key, now) :: rest else kv :: setCapture rest key now

/-- The message dedup key
`` `${conversationId}-${messageText?.substring(0, 50)}` ``. -/
def msgCaptureKey (conversationId messageText : String) : String :=
  conversationId ++ "-" ++ jsSubstringTo messageText 50

/-- The connection-request dedup key
`` `${recipientProfileUrl}-${customMessage?.substring(0, 50)}` ``. -/
def connCaptureKey (recipientProfileUrl customMessage : String) : String :=
  recipientProfileUrl ++ "-" ++ jsSubstringTo customMessage 50

/-- Embeds the duplicate-capture gate of `attachSendButtonListener` /
`attachModalSendButtonListener`:
`const lastCapture = map.get(key); if (lastCapture && now - lastCapture <
5000) return; map.set(key, now);` — returns the updated map and whether the
capture proceeds. -/
def dedupGate (m : List (String × Nat)) (key : String) (now : Nat) :
    List (String × Nat) × Bool :=
  match m.lookup key with
  | some lastCapture =>
    if lastCapture ≠ 0 && (now : Int) - (lastCapture : Int) < 5000 then (m, false)
    else (setCapture m key now, true)
  | none => (setCapture m key now, true)

/-- Embeds the body of `setupCleanupInterval` (both trackers): delete every
entry with `now - timestamp > maxAge` where `maxAge` is ten minutes. -/
def purgeOldCaptures (m : List (String × Nat)) (now : Nat) : List (String × Nat) :=
  m.filter (fun kv => !((now : Int) - (kv.2 : Int) > 600000))

/-! ## Message tracker (`src/utils/message-tracker.ts`) -/

/-- Outcome of the settle-delay capture: what `sendMessageToBackground`
receives, or nothing at all. -/
inductive MsgCaptureOutcome : Type where
  | dropped
  | deliveredFull (m : MessageData)
  | deliveredFallback (p : PreSendMessageData)
deriving DecidableEq, Repr

namespace MessageTracker

/-- Embeds `captureMessageFromThread`: thread-container lookup, the three
sent-message search strategies, latest-message selection, full extraction
with validation, and the pre-send fallback; the missing-thread branch
returns without delivering anything.  (The `catch` branch of the source also
delivers the pre-send fallback; every operation of this model is total, so
it does not arise.) -/
def captureMessageFromThread (env : JsEnv) (preSendData : PreSendMessageData)
    (composerElement : Elem) : MsgCaptureOutcome :=
  let threadContainer :=
    optOrElse (composerElement.closestSel ".msg-thread, .msg-overlay-bubble, .msg-s-modal")
      (env.document.querySelector MESSAGING_SELECTORS.messageThread)
  match threadContainer with
  | none => .dropped
  | some threadContainer =>
    let sentMessages := threadContainer.querySelectorAll MESSAGING_SELECTORS.sentMessage
    let sentMessages :=
      if sentMessages.length = 0 then
        let sentMessagesList :=
          (threadContainer.querySelectorAll ".msg-s-event-listitem, .msg-s-message-list__event").filter
            (fun message =>
              (message.querySelector ".msg-s-event-with-indicator__sending-indicator--sent").isSome)
        if sentMessagesList.length > 0 then sentMessagesList else sentMessages
      else sentMessages
    let sentMessages :=
      if sentMessages.length = 0 && preSendData.messageText ≠ "" then
        let matchingMessages :=
          (threadContainer.querySelectorAll ".msg-s-event-listitem, .msg-s-message-list__event").filter
            (fun message =>
              match message.querySelector ".msg-s-event-listitem__body, .msg-s-event__content" with
              | some messageBody =>
                let messageText := jsTrim (optStr messageBody.textContent)
                messageText ≠ "" && messageText = jsTrim preSendData.messageText
              | none => false)
        if matchingMessages.length > 0 then matchingMessages else sentMessages
      else sentMessages
    match sentMessages.getLast? with
    | none => .deliveredFallback preSendData
    | some latestMessage =>
      let messageData := MessageExtractor.extractMessageData env (some latestMessage)
        (some composerElement)
      if !(MessageExtractor.validateMessageData messageData) then
        .deliveredFallback preSendData
      else
        match messageData with
        | some m => .deliveredFull m
        | none => .deliveredFallback preSendData

/-- A scheduled `setTimeout(…, 1500)` settle-delay capture: its fire time
and the captured closure state (pre-send snapshot and composer element). -/
structure SettleTimer : Type where
  fireAt : Nat
  preSendData : PreSendMessageData
  composer : Elem

/-- The mutable fields of the `MessageTracker` class, together with the
settle-delay timers pending in the browser event loop.  The class stores no
handle to those timers — only `cleanupInterval` is retained. -/
structure TrackerState : Type where
  isInitialized : Bool
  trackedSendButtons : List Nat
  lastMessageCapture : List (String × Nat)
  cleanupIntervalActive : Bool
  pendingSettleTimers : List SettleTimer

/-- Embeds `handleSendClick` of `attachSendButtonListener`: composer lookup
result, pre-send extraction, the empty-text guard, the dedup gate, and on
success the scheduling of the 1.5 s settle-delay capture. -/
def handleSendClick (env : JsEnv) (st : TrackerState) (composer? : Option Elem)
    (now : Nat) : TrackerState :=
  match composer? with
  | none => st
  | some composer =>
    match MessageExtractor.extractPreSendMessageData env (some composer) with
    | none => st
    | some preSendData =>
      if preSendData.messageText = "" || jsTrim preSendData.messageText = "" then st
      else
        let captureKey := msgCaptureKey preSendData.conversationId preSendData.messageText
        let gate := dedupGate st.lastMessageCapture captureKey now
        if !gate.2 then st
        else
          { st with
            lastMessageCapture := gate.1,
            pendingSettleTimers := st.pendingSettleTimers ++
              [{ fireAt := now + 1500, preSendData := preSendData, composer := composer }] }

/-- Embeds `MessageTracker.cleanup`: clears the tracked-button set and the
capture map, cancels the periodic cleanup interval, and resets
`isInitialized`.  No `clearTimeout` is issued for scheduled settle-delay
captures (the class keeps no handle to them), so `pendingSettleTimers` is
untouched. -/
def cleanup (st : TrackerState) : TrackerState :=
  { st with
    trackedSendButtons := [],
    lastMessageCapture := [],
    cleanupIntervalActive := false,
    isInitialized := false }

/-- Fire one pending settle-delay callback
(`setTimeout(async () => { await this.captureMessageFromThread(preSendData,
composer); }, 1500)`): the callback body runs `captureMessageFromThread`
unconditionally — it consults no `isInitialized`-style guard and no field
cleared by `cleanup`. -/
def fireSettleTimer (env : JsEnv) (st : TrackerState) (t : SettleTimer) :
    TrackerState × MsgCaptureOutcome :=
  (st, captureMessageFromThread env t.preSendData t.composer)

/-- Embeds one tick of `setupCleanupInterval`: purge capture entries older
than the ten-minute TTL. -/
def cleanupIntervalTick (st : TrackerState) (now : Nat) : TrackerState :=
  { st with lastMessageCapture := purgeOldCaptures st.lastMessageCapture now }

end MessageTracker

/-! ## Connection request tracker (`src/utils/connection-request-tracker.ts`) -/

/-- Outcome of the confirmed-connection capture. -/
inductive ConnCaptureOutcome : Type where
  | dropped
  | deliveredConfirmed (d : ConnectionRequestData)
  | deliveredFallback (p : ConnectionRequestData)
deriving DecidableEq, Repr

namespace ConnectionTracker

/-- Embeds `captureConfirmedConnectionRequest`: confirmed extraction with
validation, falling back to the pre-send snapshot on invalid data (and, in
the source, on a thrown error; every operation of this model is total). -/
def captureConfirmedConnectionRequest (env : JsEnv) (preSendData : ConnectionRequestData) :
    ConnCaptureOutcome :=
  let confirmedData := ConnectionExtractor.extractConfirmedConnectionRequestData env
    (some preSendData)
  if !(ConnectionExtractor.validateConnectionRequestDataComplete confirmedData) then
    .deliveredFallback preSendData
  else
    match confirmedData with
    | some d => .deliveredConfirmed d
    | none => .deliveredFallback preSendData

end ConnectionTracker

/-! ## Performance manager (`src/utils/performance-manager.ts`) -/

namespace PerformanceManager

/-- One entry of the `managedPosts` map; `key` is the identity of the DOM
element used as the map key, `inDom` the `document.contains(element)`
oracle. -/
structure ManagedPost : Type where
  key : Nat
  postId : String
  hasButton : Bool
  lastSeen : Nat
  inDom : Bool
deriving DecidableEq, Repr

/-- `private readonly maxButtons = 50`. -/
def maxButtons : Nat := 50

/-- `const maxAge = 5 * 60 * 1000`. -/
def postMaxAgeMs : Nat := 5 * 60 * 1000

/-- Insert into a list sorted by ascending `lastSeen`, after entries with a
strictly smaller key and before entries with an equal or larger key — the
stable order produced by `Array.prototype.sort` with the comparator
`(a, b) => a.lastSeen - b.lastSeen`. -/
def insertByLastSeen (p : ManagedPost) : List ManagedPost → List ManagedPost
  | [] => [p]
  | q :: qs => if q.lastSeen < p.lastSeen then q :: insertByLastSeen p qs else p :: q :: qs

/-- Stable sort by ascending `lastSeen`. -/
def sortByLastSeen : List ManagedPost → List ManagedPost
  | [] => []
  | p :: ps => insertByLastSeen p (sortByLastSeen ps)

/-- Embeds `cleanupOldPosts` (the `managedPosts` part): drop entries no
longer in the DOM or older than the five-minute staleness window, then, when
more than `maxButtons` remain, evict the oldest-`lastSeen` entries down to
the cap. -/
def cleanupOldPosts (now : Nat) (posts : List ManagedPost) : List ManagedPost :=
  let kept := posts.filter (fun managed =>
    managed.inDom && !((now : Int) - (managed.lastSeen : Int) > (postMaxAgeMs : Int)))
  if kept.length > maxButtons then
    let sorted := sortByLastSeen kept
    let evictedKeys := (sorted.take (kept.length - maxButtons)).map (fun p => p.key)
    kept.filter (fun p => !(evictedKeys.contains p.key))
  else kept

end PerformanceManager

/-! ## Proof infrastructure and concrete fixtures -/

/-- Invariant characterising outputs of `collapseWs`: every whitespace
character is a plain space and is not followed by another whitespace
character (`headNotWs` checks the second half for the tail). -/
def headNotWs : List Char → Bool
  | [] => true
  | c :: _ => !isJsWs c

/-- See `headNotWs`. -/
def collapsedShape : List Char → Bool
  | [] => true
  | c :: rest => (!isJsWs c || (c = ' ' && headNotWs rest)) && collapsedShape rest

/-- A benign `JSON.parse` oracle that always reports a syntax error. -/
def benignJsonParse : String → Option JsonVal := fun _ => none

/-- A browser environment around a given document and location. -/
def mkEnv (doc : Elem) (href : String) : JsEnv :=
  { document := doc, locationHref := href, nowMs := 1700000000000,
    nowIso := "2026-01-01T00:00:00.000Z", randSuffix := "r4nd0m",
    jsonParse := benignJsonParse }

/-- U+200B ZERO WIDTH SPACE. -/
def zwsp : Char := Char.ofNat 0x200B

/-- The string `"a ⟨ZWSP⟩ b"`: an ordinary space on each side of a
zero-width space. -/
def c3s0 : String := String.mk ['a', ' ', zwsp, ' ', 'b']

/-- An environment with an empty document (no thread container anywhere). -/
def envNoThread : JsEnv := mkEnv Elem.empty "https://www.linkedin.com/messaging/"

/-- A valid pre-send message snapshot. -/
def preFix : PreSendMessageData :=
  { conversationId := "abc123", recipientName := "Ada Lovelace",
    recipientProfileUrl := "", messageText := "Hi there",
    timestamp := "2026-01-01T00:00:00.000Z", messageType := "text",
    attachments := [], isGroupMessage := false, conversationContext := "main_messaging" }

/-- A connection request whose only content-bearing field, `customMessage`,
is empty (a direct connection carries no message and no attachments). -/
def crNoContent : ConnectionRequestData :=
  { requestId := "conn-req-x", recipientName := "Ada Lovelace",
    recipientProfileUrl := "", customMessage := "",
    timestamp := "2026-01-01T00:00:00.000Z", requestContext := "other",
    hasCustomMessage := false }

/-- A complete message record with text content. -/
def msg5 : MessageData :=
  { messageId := "m1", conversationId := "c1", recipientName := "Ada",
    recipientProfileUrl := "", messageText := "hello", timestamp := "t",
    messageType := "text", attachments := [], isGroupMessage := false,
    groupMembers := none, conversationContext := "main_messaging" }

/-- A document title element whose text is empty. -/
def emptyTitleElem : Elem := .mk (some "") none [] [] [] [] []

/-- A `.feed-shared-document` card with a title element of empty text and
no link. -/
def docElem : Elem :=
  .mk none none [] [] [(".feed-shared-document__title, .document-title", emptyTitleElem)] [] []

/-- A post container holding only that document card. -/
def docContainer : Elem := .mk none none [] [] [] [(".feed-shared-document", [docElem])] []

/-- A post container holding one `img` with no `src`. -/
def bareImgContainer : Elem := .mk none none [] [] [] [("img", [Elem.empty])] []

/-- A post record passing `validatePostData` whose content contains an
empty-`data` document item next to a text item. -/
def postWithEmptyDoc : PostData :=
  { postId := "urn:li:activity:1",
    content := [{ type := .text, data := "hello" }, { type := .document, data := "" }],
    author := "Ada Lovelace", authorUrl := "", authorTitle := none,
    postUrl := "https://www.linkedin.com/feed/update/1/", timestamp := "t",
    mediaType := .mixed, isCompanyPost := false, companyName := none }

/-- An `img` element with a media CDN `src`. -/
def imgElem9 : Elem := .mk none none [] [("src", "https://media.licdn.com/pic.jpg")] [] [] []

/-- A post container holding only that image. -/
def imgContainer9 : Elem := .mk none none [] [] [] [(".feed-shared-image img", [imgElem9])] []

/-- The image item `extractComprehensivePostContent` produces for
`imgContainer9`. -/
def imgItem9 : MediaItem :=
  { type := .image, data := "https://media.licdn.com/pic.jpg",
    metadata := some { alt := none, title := none } }

/-- Cache of 51 fresh, attached posts with pairwise distinct keys and
`lastSeen` values; the entry with key 0 is the oldest. -/
def c7posts : List PerformanceManager.ManagedPost :=
  (List.range 51).map (fun i =>
    { key := i, postId := "post-" ++ toString i, hasButton := true,
      lastSeen := 1000 + i, inDom := true })

/-- A message composer whose contenteditable text area holds the given text
(for the first selector of the cascade). -/
def composerWithText (s : String) : Elem :=
  .mk none none [] []
    [(".msg-form__contenteditable.t-14.t-black--light.t-normal.flex-grow-1.full-height.notranslate[contenteditable=\"true\"]",
      Elem.mk (some s) none [] [] [] [] [])]
    [] []

/-- A composer whose text input holds `"Hello Ada"`. -/
def composer8 : Elem :=
  .mk none none [] []
    [(".msg-form__contenteditable[contenteditable=\"true\"]",
      Elem.mk (some "Hello Ada") none [] [] [] [] [])]
    [] []

/-- A document whose message-thread container exists but holds no messages. -/
def doc8 : Elem :=
  .mk none none [] [] [(".msg-s-message-list, .msg-thread__messages", Elem.empty)] [] []

/-- The environment of the `C8` scenario. -/
def env8 : JsEnv :=
  { mkEnv doc8 "https://www.linkedin.com/messaging/thread/abc123/" with
    locationPathname := "/messaging/thread/abc123/" }

/-- The pre-send snapshot the `C8` scenario captures. -/
def c8pre : PreSendMessageData :=
  { conversationId := "abc123", recipientName := "", recipientProfileUrl := "",
    messageText := "Hello Ada", timestamp := "2026-01-01T00:00:00.000Z",
    messageType := "text", attachments := [], isGroupMessage := false,
    conversationContext := "main_messaging" }

/-! ## Theorems -/

/-- Helper: a `try { … } catch { return null }` wrapper never propagates an
error. -/
theorem catchNull_isOk {α : Type} (body : Except JsErr (Option α)) :
    ∃ v, catchNull body = .ok v := by
  cases body with
  | ok v => exact ⟨v, rfl⟩
  | error e => exact ⟨none, rfl⟩

/-- Claim C2: for every DOM root — including `null`, detached, empty or
arbitrarily malformed ones — each top-level extractor (`extractPostData`,
`extractMessageData`, `extractPreSendMessageData`,
`extractDirectConnectionRequestData`, `extractConfirmedConnectionRequestData`)
returns a value (`null` or a record) to its caller and never propagates an
internal error. -/
theorem C2_extractors_never_throw (env : JsEnv)
    (postContainer messageElement composerElement preComposer connectButton : Option Elem)
    (preSendData? : Option ConnectionRequestData) :
    (∃ v, PostExtractor.extractPostDataE env postContainer = .ok v) ∧
    (∃ v, MessageExtractor.extractMessageDataE env messageElement composerElement = .ok v) ∧
    (∃ v, MessageExtractor.extractPreSendMessageDataE env preComposer = .ok v) ∧
    (∃ v, ConnectionExtractor.extractDirectConnectionRequestDataE env connectButton = .ok v) ∧
    (∃ v, ConnectionExtractor.extractConfirmedConnectionRequestDataE env preSendData? = .ok v) :=
  ⟨catchNull_isOk _, catchNull_isOk _, catchNull_isOk _, catchNull_isOk _, catchNull_isOk _⟩

/-- Claim C2 witness: the extractors applied to `null` roots in an empty
document all return `ok`. -/
theorem C2_witness :
    (∃ v, PostExtractor.extractPostDataE envNoThread none = .ok v) ∧
    (∃ v, MessageExtractor.extractMessageDataE envNoThread none none = .ok v) ∧
    (∃ v, MessageExtractor.extractPreSendMessageDataE envNoThread none = .ok v) ∧
    (∃ v, ConnectionExtractor.extractDirectConnectionRequestDataE envNoThread none = .ok v) ∧
    (∃ v, ConnectionExtractor.extractConfirmedConnectionRequestDataE envNoThread none = .ok v) :=
  C2_extractors_never_throw envNoThread none none none none none none

/-- Claim C1 counterexample: two items of the identical non-text type yield
`mixed` (the types do not mix, so the claim requires a non-`mixed` result),
and a singleton text item yields `text` on a non-empty array (refuting
"returns `text` iff the array is empty"). -/
theorem C1_counterexample :
    PostExtractor.determineMediaType
      [{ type := .image, data := "u" }, { type := .image, data := "v" }] = .mixed ∧
    PostExtractor.determineMediaType [{ type := .text, data := "t" }] = .text ∧
    ([({ type := .text, data := "t" } : MediaItem)] : List MediaItem) ≠ [] :=
  ⟨rfl, rfl, by decide⟩

/-- Claim C1 (amended): `determineMediaType` returns `text` for an empty
array, the item's own type for a singleton (so also `text` for a singleton
text item), and `mixed` for every array of two or more items, whether or
not the types actually mix. -/
theorem C1_determineMediaType_amended (content : List MediaItem) :
    (content = [] → PostExtractor.determineMediaType content = .text) ∧
    (∀ x, content = [x] → PostExtractor.determineMediaType content = x.type) ∧
    (2 ≤ content.length → PostExtractor.determineMediaType content = .mixed) := by
  refine ⟨?_, ?_, ?_⟩
  · rintro rfl; rfl
  · rintro x rfl; rfl
  · intro h
    match content, h with
    | x :: y :: rest, _ => simp [PostExtractor.determineMediaType]

/-- Claim C1 witness. -/
theorem C1_witness :
    PostExtractor.determineMediaType [] = .text ∧
    PostExtractor.determineMediaType
      [{ type := .image, data := "i" }, { type := .video, data := "v" }] = .mixed :=
  ⟨(C1_determineMediaType_amended []).1 rfl,
   (C1_determineMediaType_amended _).2.2 (by decide)⟩

/-- Claim C8: after `MessageTracker.cleanup`, the tracked-button set, the
capture map and the periodic interval are cleared and `isInitialized` is
reset — but a settle-delay capture timer scheduled by a send click before
cleanup still fires, performs the thread extraction, and delivers the
pre-send snapshot: it is not cancelled and not guarded by any
`isInitialized`-style flag, contradicting the claimed no-op behaviour. -/
theorem C8_settle_timer_after_cleanup :
    let st0 : MessageTracker.TrackerState :=
      { isInitialized := true, trackedSendButtons := [1], lastMessageCapture := [],
        cleanupIntervalActive := true, pendingSettleTimers := [] }
    let st2 := MessageTracker.cleanup
      (MessageTracker.handleSendClick env8 st0 (some composer8) 100000)
    st2.isInitialized = false ∧
    st2.trackedSendButtons = [] ∧
    st2.lastMessageCapture = [] ∧
    st2.cleanupIntervalActive = false ∧
    st2.pendingSettleTimers.length = 1 ∧
    ∀ t ∈ st2.pendingSettleTimers,
      (MessageTracker.fireSettleTimer env8 st2 t).2 = .deliveredFallback c8pre := by
  decide

/-- Helper: looking a key up past a matching head entry. -/
theorem lookup_cons_eq (a : String × Nat) (rest : List (String × Nat)) (k : String)
    (h : a.1 = k) : (a :: rest).lookup k = some a.2 := by
  cases a with
  | mk a1 a2 =>
    simp only at h
    subst h
    simp [List.lookup]

/-- Helper: looking a key up past a non-matching head entry. -/
theorem lookup_cons_ne (a : String × Nat) (rest : List (String × Nat)) (k : String)
    (h : a.1 ≠ k) : (a :: rest).lookup k = rest.lookup k := by
  have hb : (k == a.1) = false := beq_eq_false_iff_ne.mpr (Ne.symm h)
  simp [List.lookup, hb]

/-- Helper: a map none of whose entries carries the key looks it up to
nothing. -/
theorem lookup_eq_none_of_forall (m : List (String × Nat)) (k : String)
    (h : ∀ kv ∈ m, kv.1 ≠ k) : m.lookup k = none := by
  induction m with
  | nil => rfl
  | cons a rest ih =>
    rw [lookup_cons_ne a rest k (h a (List.mem_cons_self a rest))]
    exact ih (fun kv hkv => h kv (List.mem_cons_of_mem _ hkv))

/-- Helper: a key that looks up to nothing heads no entry. -/
theorem fst_ne_of_lookup_none (m : List (String × Nat)) (k : String)
    (hm : m.lookup k = none) : ∀ kv ∈ m, kv.1 ≠ k := by
  induction m with
  | nil => intro kv h; cases h
  | cons a rest ih =>
    intro kv hkv
    by_cases ha : a.1 = k
    · rw [lookup_cons_eq a rest k ha] at hm; cases hm
    · rw [lookup_cons_ne a rest k ha] at hm
      rcases List.mem_cons.1 hkv with h | h
      · rw [h]; exact ha
      · exact ih hm kv h

/-- Helper: `Map.set` makes the key look up to the new value. -/
theorem lookup_setCapture_self (m : List (String × Nat)) (k : String) (v : Nat) :
    (setCapture m k v).lookup k = some v := by
  induction m with
  | nil => exact lookup_cons_eq (k, v) [] k rfl
  | cons a rest ih =>
    by_cases h : a.1 = k
    · have e : setCapture (a :: rest) k v = (k, v) :: rest := by simp [setCapture, h]
      rw [e]; exact lookup_cons_eq (k, v) rest k rfl
    · have e : setCapture (a :: rest) k v = a :: setCapture rest k v := by
        simp [setCapture, h]
      rw [e, lookup_cons_ne a _ k h]; exact ih

/-- Helper: entries of `Map.set` are the new binding or old entries. -/
theorem mem_setCapture (m : List (String × Nat)) (k : String) (v : Nat) :
    ∀ kv ∈ setCapture m k v, kv = (k, v) ∨ kv ∈ m := by
  induction m with
  | nil =>
    intro kv hkv
    have e : setCapture [] k v = [(k, v)] := rfl
    rw [e] at hkv
    exact Or.inl (by simpa using hkv)
  | cons a rest ih =>
    intro kv hkv
    by_cases h : a.1 = k
    · have e : setCapture (a :: rest) k v = (k, v) :: rest := by simp [setCapture, h]
      rw [e] at hkv
      rcases List.mem_cons.1 hkv with h' | h'
      · exact Or.inl h'
      · exact Or.inr (List.mem_cons_of_mem _ h')
    · have e : setCapture (a :: rest) k v = a :: setCapture rest k v := by
        simp [setCapture, h]
      rw [e] at hkv
      rcases List.mem_cons.1 hkv with h' | h'
      · exact Or.inr (by rw [h']; exact List.mem_cons_self a rest)
      · rcases ih kv h' with h'' | h''
        · exact Or.inl h''
        · exact Or.inr (List.mem_cons_of_mem _ h'')

/-- Helper: after the TTL purge, a key whose only binding is older than the
TTL looks up to nothing. -/
theorem lookup_purge_setCapture (m : List (String × Nat)) (k : String) (v now : Nat)
    (hm : m.lookup k = none) (hv : (now : Int) - (v : Int) > 600000) :
    (purgeOldCaptures (setCapture m k v) now).lookup k = none := by
  refine lookup_eq_none_of_forall _ _ ?_
  intro kv hkv
  have hmem := List.mem_filter.1 hkv
  rcases mem_setCapture m k v kv hmem.1 with h | h
  · exfalso
    have hpred := hmem.2
    rw [h] at hpred
    simp [hv] at hpred
  · exact fst_ne_of_lookup_none m k hm kv h

/-- Claim C4: two capture attempts with the identical dedup key
(conversation id plus the message text truncated to 50 characters) within
5000 ms: only the first passes the gate; the second is dropped without
changing the map; after the ten-minute TTL purge has removed the entry, an
attempt with the same key passes again. -/
theorem C4_dedup_window_ttl (conversationId messageText : String)
    (m0 : List (String × Nat)) (t1 t2 tp t3 : Nat)
    (hk : m0.lookup (msgCaptureKey conversationId messageText) = none)
    (h1 : t1 ≠ 0)
    (h12 : (t2 : Int) - (t1 : Int) < 5000)
    (hp : (tp : Int) - (t1 : Int) > 600000) :
    (dedupGate m0 (msgCaptureKey conversationId messageText) t1).2 = true ∧
    (dedupGate (dedupGate m0 (msgCaptureKey conversationId messageText) t1).1
      (msgCaptureKey conversationId messageText) t2).2 = false ∧
    (dedupGate (dedupGate m0 (msgCaptureKey conversationId messageText) t1).1
      (msgCaptureKey conversationId messageText) t2).1 =
      (dedupGate m0 (msgCaptureKey conversationId messageText) t1).1 ∧
    (dedupGate
      (purgeOldCaptures
        (dedupGate (dedupGate m0 (msgCaptureKey conversationId messageText) t1).1
          (msgCaptureKey conversationId messageText) t2).1 tp)
      (msgCaptureKey conversationId messageText) t3).2 = true := by
  set key := msgCaptureKey conversationId messageText with hkey
  have e1 : dedupGate m0 key t1 = (setCapture m0 key t1, true) := by
    simp [dedupGate, hk]
  have e2 : dedupGate (setCapture m0 key t1) key t2 = (setCapture m0 key t1, false) := by
    simp [dedupGate, lookup_setCapture_self, h1, h12]
  have e3 : (purgeOldCaptures (setCapture m0 key t1) tp).lookup key = none :=
    lookup_purge_setCapture m0 key t1 tp hk hp
  refine ⟨by rw [e1], by rw [e1, e2], by rw [e1, e2], ?_⟩
  rw [e1, e2]
  simp [dedupGate, e3]

/-- Claim C4 witness. -/
theorem C4_witness :
    (dedupGate [] (msgCaptureKey "abc123" "Hi there") 1000).2 = true ∧
    (dedupGate (dedupGate [] (msgCaptureKey "abc123" "Hi there") 1000).1
      (msgCaptureKey "abc123" "Hi there") 3000).2 = false ∧
    (dedupGate (dedupGate [] (msgCaptureKey "abc123" "Hi there") 1000).1
      (msgCaptureKey "abc123" "Hi there") 3000).1 =
      (dedupGate [] (msgCaptureKey "abc123" "Hi there") 1000).1 ∧
    (dedupGate
      (purgeOldCaptures
        (dedupGate (dedupGate [] (msgCaptureKey "abc123" "Hi there") 1000).1
          (msgCaptureKey "abc123" "Hi there") 3000).1 700000)
      (msgCaptureKey "abc123" "Hi there") 700000).2 = true :=
  C4_dedup_window_ttl "abc123" "Hi there" [] 1000 3000 700000 700000 rfl
    (by decide) (by decide) (by decide)

/-- Claim C5 counterexample: a connection request with an empty custom
message (and no attachments whatsoever in its record shape) passes
`validateConnectionRequestDataComplete`, although the claim requires
non-empty text content or at least one attachment for every family. -/
theorem C5_counterexample :
    ConnectionExtractor.validateConnectionRequestDataComplete (some crNoContent) = true ∧
    crNoContent.customMessage = "" ∧
    crNoContent.hasCustomMessage = false :=
  ⟨rfl, rfl, rfl⟩

/-- Claim C5 (amended): message records require identity fields and
(non-empty text or an attachment); post records require identity, a
non-empty content array and one item with non-blank data; connection-request
records require only `requestId`, `recipientName` and `timestamp` — no text
or attachment; `null` never validates. -/
theorem C5_validation_amended :
    (∀ d : MessageData, MessageExtractor.validateMessageData (some d) = true ↔
      (d.messageId ≠ "" ∧ d.conversationId ≠ "" ∧ d.recipientName ≠ "" ∧
        (d.messageText ≠ "" ∨ d.attachments ≠ []))) ∧
    (∀ p : PostData, PostExtractor.validatePostData (some p) = true ↔
      (p.postId ≠ "" ∧ p.author ≠ "" ∧ p.content ≠ [] ∧
        ∃ item ∈ p.content, item.data ≠ "" ∧ 0 < (jsTrim item.data).length)) ∧
    (∀ c : ConnectionRequestData,
      ConnectionExtractor.validateConnectionRequestDataComplete (some c) = true ↔
        (c.requestId ≠ "" ∧ c.recipientName ≠ "" ∧ c.timestamp ≠ "")) ∧
    MessageExtractor.validateMessageData none = false ∧
    PostExtractor.validatePostData none = false ∧
    ConnectionExtractor.validateConnectionRequestDataComplete none = false := by
  refine ⟨?_, ?_, ?_, rfl, rfl, rfl⟩
  · intro d
    by_cases h1 : d.messageId = "" <;> by_cases h2 : d.conversationId = "" <;>
      by_cases h3 : d.recipientName = "" <;> by_cases h4 : d.messageText = "" <;>
      by_cases h5 : d.attachments = [] <;>
      simp [MessageExtractor.validateMessageData, h1, h2, h3, h4, h5,
        List.length_eq_zero]
  · intro p
    by_cases h1 : p.postId = "" <;> by_cases h2 : p.author = "" <;>
      by_cases h3 : p.content = [] <;>
      simp [PostExtractor.validatePostData, h1, h2, h3, List.length_eq_zero,
        List.any_eq_true, Nat.pos_iff_ne_zero]
  · intro c
    by_cases h1 : c.requestId = "" <;> by_cases h2 : c.recipientName = "" <;>
      by_cases h3 : c.timestamp = "" <;>
      simp [ConnectionExtractor.validateConnectionRequestDataComplete, h1, h2, h3]

/-- Claim C5 witness. -/
theorem C5_witness :
    MessageExtractor.validateMessageData (some msg5) = true :=
  (C5_validation_amended.1 msg5).mpr
    ⟨by decide, by decide, by decide, Or.inl (by decide)⟩

/-- Claim C6 counterexample: a valid pre-send snapshot (non-empty text and
recipient) is dropped — not delivered as fallback — when no thread container
is found, although the claim lists a missing thread DOM as a failure mode
that must fall back to the pre-action snapshot. -/
theorem C6_counterexample :
    MessageTracker.captureMessageFromThread envNoThread preFix Elem.empty =
      .dropped ∧
    preFix.messageText ≠ "" ∧ preFix.recipientName ≠ "" := by
  decide

/-- Helper: the final step of the settle-delay capture (latest-message
selection, extraction, validation) never yields `dropped`, whatever list of
candidate sent messages the three strategies produced. -/
theorem capture_final_ne_dropped (env : JsEnv) (pre : PreSendMessageData)
    (composer : Elem) (msgs : List Elem) :
    (match msgs.getLast? with
     | none => MsgCaptureOutcome.deliveredFallback pre
     | some latestMessage =>
       let messageData := MessageExtractor.extractMessageData env (some latestMessage)
         (some composer)
       if !MessageExtractor.validateMessageData messageData then
         MsgCaptureOutcome.deliveredFallback pre
       else
         match messageData with
         | some m => MsgCaptureOutcome.deliveredFull m
         | none => MsgCaptureOutcome.deliveredFallback pre) ≠ .dropped := by
  cases msgs.getLast? with
  | none => simp
  | some lm =>
    dsimp only
    split
    · simp
    · split <;> simp

/-- Helper: when the final step of the settle-delay capture delivers a full
record, that record passed `validateMessageData`. -/
theorem capture_final_full_valid (env : JsEnv) (pre : PreSendMessageData)
    (composer : Elem) (msgs : List Elem) (m : MessageData) :
    (match msgs.getLast? with
     | none => MsgCaptureOutcome.deliveredFallback pre
     | some latestMessage =>
       let messageData := MessageExtractor.extractMessageData env (some latestMessage)
         (some composer)
       if !MessageExtractor.validateMessageData messageData then
         MsgCaptureOutcome.deliveredFallback pre
       else
         match messageData with
         | some m0 => MsgCaptureOutcome.deliveredFull m0
         | none => MsgCaptureOutcome.deliveredFallback pre) = .deliveredFull m →
    MessageExtractor.validateMessageData (some m) = true := by
  cases msgs.getLast? with
  | none => intro h; cases h
  | some lm =>
    dsimp only
    split
    · intro h; cases h
    · rename_i hvalid
      split
      · rename_i m0 heq
        intro h
        cases h
        rw [Bool.not_eq_true', Bool.not_eq_false] at hvalid
        rw [heq] at hvalid
        exact hvalid
      · intro h; cases h

/-- Helper: whenever a thread container exists, the settle-delay capture
delivers something (full record or pre-send fallback). -/
theorem captureMessageFromThread_not_dropped_of_thread (env : JsEnv)
    (pre : PreSendMessageData) (composer : Elem) (tc : Elem)
    (h : optOrElse (composer.closestSel ".msg-thread, .msg-overlay-bubble, .msg-s-modal")
      (env.document.querySelector MESSAGING_SELECTORS.messageThread) = some tc) :
    MessageTracker.captureMessageFromThread env pre composer ≠ .dropped := by
  unfold MessageTracker.captureMessageFromThread
  rw [h]
  exact capture_final_ne_dropped env pre composer _

/-- Claim C6 (amended): the settle-delay message capture drops the action
exactly when no thread container is found; in every other failure mode (no
sent message found by any of the three strategies, or an extracted record
failing re-validation) it delivers the pre-send fallback, and a delivered
full record is always validated; the connection-request capture never drops
(it always delivers the confirmed record or the pre-send fallback). -/
theorem C6_second_phase_fallback_amended (env : JsEnv) (pre : PreSendMessageData)
    (composer : Elem) :
    (MessageTracker.captureMessageFromThread env pre composer = .dropped ↔
      optOrElse (composer.closestSel ".msg-thread, .msg-overlay-bubble, .msg-s-modal")
        (env.document.querySelector MESSAGING_SELECTORS.messageThread) = none) ∧
    (∀ m, MessageTracker.captureMessageFromThread env pre composer = .deliveredFull m →
      MessageExtractor.validateMessageData (some m) = true) ∧
    (∀ (env2 : JsEnv) (p : ConnectionRequestData),
      ConnectionTracker.captureConfirmedConnectionRequest env2 p ≠ .dropped) := by
  refine ⟨?_, ?_, ?_⟩
  · constructor
    · intro hdrop
      cases h : optOrElse (composer.closestSel ".msg-thread, .msg-overlay-bubble, .msg-s-modal")
        (env.document.querySelector MESSAGING_SELECTORS.messageThread) with
      | none => rfl
      | some tc =>
        exact absurd hdrop
          (captureMessageFromThread_not_dropped_of_thread env pre composer tc h)
    · intro h
      unfold MessageTracker.captureMessageFromThread
      rw [h]
  · intro m hfull
    unfold MessageTracker.captureMessageFromThread at hfull
    revert hfull
    cases h : optOrElse (composer.closestSel ".msg-thread, .msg-overlay-bubble, .msg-s-modal")
      (env.document.querySelector MESSAGING_SELECTORS.messageThread) with
    | none => intro hfull; cases hfull
    | some tc => exact capture_final_full_valid env pre composer _ m
  · intro env2 p
    unfold ConnectionTracker.captureConfirmedConnectionRequest
    dsimp only
    split
    · simp
    · split <;> simp

/-- Claim C6 witness: the connection-request capture at a concrete
environment and snapshot is not dropped. -/
theorem C6_witness :
    ConnectionTracker.captureConfirmedConnectionRequest envNoThread crNoContent ≠
      .dropped :=
  (C6_second_phase_fallback_amended envNoThread preFix Elem.empty).2.2 envNoThread crNoContent

/-- Helper: whitespace collapsing never lengthens a list. -/
theorem collapseWsAux_length_le (l : List Char) : ∀ b, (collapseWsAux b l).length ≤ l.length := by
  induction l with
  | nil => intro b; simp [collapseWsAux]
  | cons c cs ih =>
    intro b
    by_cases hc : isJsWs c = true
    · cases b with
      | true =>
        simp only [collapseWsAux, hc, if_true]
        exact Nat.le_succ_of_le (ih true)
      | false =>
        simp only [collapseWsAux, hc, if_true, List.length_cons]
        exact Nat.succ_le_succ (ih true)
    · simp only [collapseWsAux, hc, if_false, List.length_cons]
      exact Nat.succ_le_succ (ih false)

/-- Helper: in run mode the collapser starts its output with a non-space. -/
theorem headNotWs_collapseWsAux_true (l : List Char) :
    headNotWs (collapseWsAux true l) = true := by
  induction l with
  | nil => rfl
  | cons c cs ih =>
    by_cases hc : isJsWs c = true
    · simp only [collapseWsAux, hc, if_true]; exact ih
    · simp only [collapseWsAux, hc, if_false, headNotWs]
      simp [hc]

/-- Helper: collapser outputs satisfy the collapsed-shape invariant. -/
theorem collapsedShape_collapseWsAux (l : List Char) :
    ∀ b, collapsedShape (collapseWsAux b l) = true := by
  induction l with
  | nil => intro b; rfl
  | cons c cs ih =>
    intro b
    by_cases hc : isJsWs c = true
    · cases b with
      | true => simp only [collapseWsAux, hc, if_true]; exact ih true
      | false =>
        simp only [collapseWsAux, hc, if_true, collapsedShape]
        simp [headNotWs_collapseWsAux_true, ih true, isJsWs]
    · simp only [collapseWsAux, hc, if_false, collapsedShape]
      simp [hc, ih false]

/-- Helper: on collapsed-shape inputs the collapser is the identity (in run
mode additionally assuming the head is not whitespace). -/
theorem collapseWsAux_eq_self (l : List Char) (h : collapsedShape l = true) :
    collapseWsAux false l = l ∧ (headNotWs l = true → collapseWsAux true l = l) := by
  induction l with
  | nil => exact ⟨rfl, fun _ => rfl⟩
  | cons c cs ih =>
    simp only [collapsedShape, Bool.and_eq_true] at h
    obtain ⟨hc, hcs⟩ := h
    rcases ih hcs with ⟨ihf, iht⟩
    by_cases hw : isJsWs c = true
    · have hsp : c = ' ' ∧ headNotWs cs = true := by
        rcases Bool.or_eq_true_iff.1 hc with h' | h'
        · exfalso; simp [hw] at h'
        · simp only [Bool.and_eq_true] at h'
          exact ⟨of_decide_eq_true h'.1, h'.2⟩
      constructor
      · obtain ⟨hc1, hh⟩ := hsp
        subst hc1
        simp [collapseWsAux, hw, iht hh]
      · intro hhead
        exfalso
        simp [headNotWs, hw] at hhead
    · constructor
      · simp [collapseWsAux, hw, ihf]
      · intro _
        simp [collapseWsAux, hw, ihf]

/-- Helper: `headNotWs` passes to prefixes. -/
theorem headNotWs_append_left (l₁ l₂ : List Char)
    (h : headNotWs (l₁ ++ l₂) = true) : headNotWs l₁ = true := by
  cases l₁ with
  | nil => rfl
  | cons c cs => simpa [headNotWs] using h

/-- Helper: the collapsed-shape invariant passes to prefixes. -/
theorem collapsedShape_append_left (l₁ l₂ : List Char)
    (h : collapsedShape (l₁ ++ l₂) = true) : collapsedShape l₁ = true := by
  induction l₁ with
  | nil => rfl
  | cons c cs ih =>
    simp only [List.cons_append, collapsedShape, Bool.and_eq_true] at h ⊢
    obtain ⟨hc, hcs⟩ := h
    refine ⟨?_, ih hcs⟩
    rcases Bool.or_eq_true_iff.1 hc with h' | h'
    · simp [h']
    · simp only [Bool.and_eq_true] at h'
      have hc1 : c = ' ' := of_decide_eq_true h'.1
      have hh : headNotWs cs = true := headNotWs_append_left _ _ h'.2
      simp [hc1, hh, isJsWs]

/-- Helper: the collapsed-shape invariant survives `dropWhile`. -/
theorem collapsedShape_dropWhile (p : Char → Bool) (l : List Char)
    (h : collapsedShape l = true) : collapsedShape (l.dropWhile p) = true := by
  induction l with
  | nil => simpa using h
  | cons c cs ih =>
    simp only [collapsedShape, Bool.and_eq_true] at h
    by_cases hp : p c = true
    · rw [List.dropWhile_cons, if_pos hp]
      exact ih h.2
    · rw [List.dropWhile_cons, if_neg hp]
      simp only [collapsedShape, Bool.and_eq_true]
      exact h

/-- Helper: `dropWhile` leaves no matching head. -/
theorem headNotWs_dropWhile (l : List Char) :
    headNotWs (l.dropWhile isJsWs) = true := by
  induction l with
  | nil => rfl
  | cons c cs ih =>
    by_cases hc : isJsWs c = true
    · rw [List.dropWhile_cons, if_pos hc]; exact ih
    · rw [List.dropWhile_cons, if_neg hc]
      simp [headNotWs, hc]

/-- Helper: `dropWhile` is the identity when the head does not match. -/
theorem dropWhile_eq_self_of_headNotWs (l : List Char)
    (h : headNotWs l = true) : l.dropWhile isJsWs = l := by
  cases l with
  | nil => rfl
  | cons c cs =>
    simp only [headNotWs] at h
    have hns : isJsWs c = false := by simpa using h
    rw [List.dropWhile_cons, if_neg (by simp [hns])]

/-- Helper: the trimmed list is a prefix of the left-trimmed list. -/
theorem trimList_append_decomp (l : List Char) :
    trimList l ++ ((l.dropWhile isJsWs).reverse.takeWhile isJsWs).reverse =
      l.dropWhile isJsWs := by
  unfold trimList
  rw [← List.reverse_append]
  rw [List.takeWhile_append_dropWhile]
  rw [List.reverse_reverse]

/-- Helper: trimming preserves the collapsed-shape invariant. -/
theorem collapsedShape_trimList (l : List Char) (h : collapsedShape l = true) :
    collapsedShape (trimList l) = true := by
  have h1 : collapsedShape (l.dropWhile isJsWs) = true := collapsedShape_dropWhile _ _ h
  have h2 := trimList_append_decomp l
  exact collapsedShape_append_left _ _ (by rw [h2]; exact h1)

/-- Helper: trimmed lists have no leading whitespace. -/
theorem headNotWs_trimList (l : List Char) : headNotWs (trimList l) = true := by
  have h2 := trimList_append_decomp l
  exact headNotWs_append_left _ _ (by rw [h2]; exact headNotWs_dropWhile l)

/-- Helper: trimmed lists have no trailing whitespace. -/
theorem headNotWs_reverse_trimList (l : List Char) :
    headNotWs (trimList l).reverse = true := by
  unfold trimList
  rw [List.reverse_reverse]
  exact headNotWs_dropWhile _

/-- Helper: trimming is the identity on edge-whitespace-free lists. -/
theorem trimList_eq_self (l : List Char) (h1 : headNotWs l = true)
    (h2 : headNotWs l.reverse = true) : trimList l = l := by
  unfold trimList
  rw [dropWhile_eq_self_of_headNotWs l h1]
  rw [dropWhile_eq_self_of_headNotWs l.reverse h2]
  exact List.reverse_reverse l

/-- Helper: trimming is idempotent. -/
theorem trimList_idem (l : List Char) : trimList (trimList l) = trimList l :=
  trimList_eq_self _ (headNotWs_trimList l) (headNotWs_reverse_trimList l)

/-- Helper: characters of the collapsed list are spaces or input characters. -/
theorem mem_collapseWsAux (l : List Char) :
    ∀ b c, c ∈ collapseWsAux b l → c = ' ' ∨ c ∈ l := by
  induction l with
  | nil => intro b c h; simp [collapseWsAux] at h
  | cons d ds ih =>
    intro b c h
    by_cases hd : isJsWs d = true
    · cases b with
      | true =>
        simp only [collapseWsAux, hd, if_true] at h
        rcases ih true c h with h' | h'
        · exact Or.inl h'
        · exact Or.inr (List.mem_cons_of_mem _ h')
      | false =>
        simp only [collapseWsAux, hd, if_true] at h
        rcases List.mem_cons.1 h with h' | h'
        · exact Or.inl h'
        · rcases ih true c h' with h'' | h''
          · exact Or.inl h''
          · exact Or.inr (List.mem_cons_of_mem _ h'')
    · simp only [collapseWsAux, hd, if_false] at h
      rcases List.mem_cons.1 h with h' | h'
      · exact Or.inr (by rw [h']; exact List.mem_cons_self d ds)
      · rcases ih false c h' with h'' | h''
        · exact Or.inl h''
        · exact Or.inr (List.mem_cons_of_mem _ h'')

/-- Helper: characters of the trimmed list are input characters. -/
theorem mem_trimList (l : List Char) (c : Char) (h : c ∈ trimList l) : c ∈ l := by
  unfold trimList at h
  rw [List.mem_reverse] at h
  have h1 := (List.dropWhile_sublist (l := (l.dropWhile isJsWs).reverse) isJsWs).subset h
  rw [List.mem_reverse] at h1
  exact (List.dropWhile_sublist isJsWs).subset h1

/-- Helper: zero-width removal is the identity without zero-width input. -/
theorem removeZeroWidth_eq_self (l : List Char)
    (h : ∀ c ∈ l, isZeroWidthChar c = false) : removeZeroWidth l = l := by
  unfold removeZeroWidth
  rw [List.filter_eq_self]
  intro c hc
  simp [h c hc]

/-- Helper: tag removal is the identity when no `<` occurs. -/
theorem removeTagsAux_false_eq_self (l : List Char) (h : ('<' : Char) ∉ l) :
    removeTagsAux false l = l := by
  induction l with
  | nil => rfl
  | cons c cs ih =>
    have hc : c ≠ '<' := fun hc => h (by rw [hc]; exact List.mem_cons_self _ _)
    have hcs : ('<' : Char) ∉ cs := fun h' => h (List.mem_cons_of_mem _ h')
    simp only [removeTagsAux]
    rw [if_neg (by simp [hc])]
    rw [ih hcs]

/-- Helper: string-to-list roundtrip. -/
theorem toList_asString (l : List Char) : (List.asString l).toList = l := rfl

/-- Helper: literal deletion never lengthens a list. -/
theorem removeAllAux_length_le (pat : List Char) (l : List Char) :
    ∀ k, (removeAllAux pat l k).length ≤ l.length := by
  induction l with
  | nil => intro k; simp [removeAllAux]
  | cons c cs ih =>
    intro k
    cases k with
    | succ k' =>
      simp only [removeAllAux]
      exact Nat.le_succ_of_le (ih k')
    | zero =>
      by_cases hb : (!pat.isEmpty && listPre pat (c :: cs)) = true
      · simp only [removeAllAux, hb, if_true]
        exact Nat.le_succ_of_le (ih _)
      · simp only [removeAllAux, hb, if_false, List.length_cons]
        exact Nat.succ_le_succ (ih 0)

/-- Helper: deletion step at a matching head. -/
theorem removeAllSub_cons_pos (pat : List Char) (c : Char) (cs : List Char)
    (hb : (!pat.isEmpty && listPre pat (c :: cs)) = true) :
    removeAllSub pat (c :: cs) = removeAllAux pat cs (pat.length - 1) := by
  unfold removeAllSub
  simp only [removeAllAux]
  rw [if_pos hb]

/-- Helper: deletion step at a non-matching head. -/
theorem removeAllSub_cons_neg (pat : List Char) (c : Char) (cs : List Char)
    (hb : ¬((!pat.isEmpty && listPre pat (c :: cs)) = true)) :
    removeAllSub pat (c :: cs) = c :: removeAllSub pat cs := by
  unfold removeAllSub
  simp only [removeAllAux]
  rw [if_neg hb]

/-- Helper: a length-preserving literal deletion deleted nothing. -/
theorem removeAllSub_eq_self_of_length (pat : List Char) (l : List Char)
    (h : (removeAllSub pat l).length = l.length) : removeAllSub pat l = l := by
  induction l with
  | nil => rfl
  | cons c cs ih =>
    by_cases hb : (!pat.isEmpty && listPre pat (c :: cs)) = true
    · exfalso
      rw [removeAllSub_cons_pos pat c cs hb] at h
      have hle := removeAllAux_length_le pat cs (pat.length - 1)
      simp only [List.length_cons] at h
      omega
    · rw [removeAllSub_cons_neg pat c cs hb] at h ⊢
      simp only [List.length_cons] at h
      have htail : (removeAllSub pat cs).length = cs.length := by omega
      rw [ih htail]

/-- Helper: an occurrence anywhere but at the head lies in the tail. -/
theorem containsSub_tail (pat : List Char) (c : Char) (cs : List Char)
    (h : containsSub pat (c :: cs) = true) (hp : listPre pat (c :: cs) = false) :
    containsSub pat cs = true := by
  simp only [containsSub, hp, Bool.false_or] at h
  exact h

/-- Helper: deleting an occurring non-empty literal strictly shortens. -/
theorem removeAllSub_length_lt (pat : List Char) (l : List Char)
    (hpat : pat ≠ []) (h : containsSub pat l = true) :
    (removeAllSub pat l).length < l.length := by
  induction l with
  | nil =>
    exfalso
    cases pat with
    | nil => exact hpat rfl
    | cons p ps => simp [containsSub, listPre] at h
  | cons c cs ih =>
    by_cases hb : (!pat.isEmpty && listPre pat (c :: cs)) = true
    · rw [removeAllSub_cons_pos pat c cs hb]
      simp only [List.length_cons]
      exact Nat.lt_succ_of_le (removeAllAux_length_le pat cs _)
    · have hp : listPre pat (c :: cs) = false := by
        have hne : (!pat.isEmpty) = true := by
          cases pat with
          | nil => exact absurd rfl hpat
          | cons p ps => rfl
        by_contra hcontra
        rw [Bool.not_eq_false] at hcontra
        exact hb (by rw [hne, hcontra]; rfl)
      rw [removeAllSub_cons_neg pat c cs hb]
      simp only [List.length_cons]
      exact Nat.succ_lt_succ (ih (containsSub_tail pat c cs h hp))

/-- Helper: the phrase-deletion fold never lengthens a list. -/
theorem foldl_remove_length_le (pats : List String) (l : List Char) :
    ((pats.foldl (fun acc phrase => removeAllSub phrase.toList acc) l)).length ≤ l.length := by
  induction pats generalizing l with
  | nil => simp
  | cons q qs ih =>
    simp only [List.foldl_cons]
    exact le_trans (ih _) (removeAllAux_length_le _ _ _)

/-- Helper: the phrase-deletion fold strictly shortens any list containing
one of its non-empty phrases. -/
theorem foldl_remove_length_lt (pats : List String) (p : String)
    (hp : p.toList ≠ []) :
    ∀ l, p ∈ pats → containsSub p.toList l = true →
      ((pats.foldl (fun acc phrase => removeAllSub phrase.toList acc) l)).length < l.length := by
  induction pats with
  | nil => intro l hmem _; cases hmem
  | cons q qs ih =>
    intro l hmem hc
    simp only [List.foldl_cons]
    rcases List.mem_cons.1 hmem with h | h
    · rw [← h]
      exact lt_of_le_of_lt (foldl_remove_length_le qs _)
        (removeAllSub_length_lt p.toList l hp hc)
    · rcases Nat.lt_or_ge (removeAllSub q.toList l).length l.length with hlt | hge
      · exact lt_of_le_of_lt (foldl_remove_length_le qs _) hlt
      · have heq : (removeAllSub q.toList l).length = l.length :=
          le_antisymm (removeAllAux_length_le _ _ _) hge
        rw [removeAllSub_eq_self_of_length q.toList l heq]
        exact ih l h hc

/-- Helper: tag removal never lengthens a list. -/
theorem removeTagsAux_length_le (l : List Char) :
    ∀ b, (removeTagsAux b l).length ≤ l.length := by
  induction l with
  | nil => intro b; simp [removeTagsAux]
  | cons c cs ih =>
    intro b
    cases b with
    | true =>
      by_cases h : c = '>'
      · simp only [removeTagsAux, h, if_pos rfl]
        exact Nat.le_succ_of_le (ih false)
      · simp only [removeTagsAux, if_neg h]
        exact Nat.le_succ_of_le (ih true)
    | false =>
      by_cases h : (c = '<' && hasChar '>' cs) = true
      · simp only [removeTagsAux, h, if_true]
        exact Nat.le_succ_of_le (ih true)
      · simp only [removeTagsAux, h, if_false, List.length_cons]
        exact Nat.succ_le_succ (ih false)

/-- Helper: trimming never lengthens a list. -/
theorem trimList_length_le (l : List Char) : (trimList l).length ≤ l.length := by
  unfold trimList
  have h1 := (List.dropWhile_sublist (l := l) isJsWs).length_le
  have h2 := (List.dropWhile_sublist (l := (l.dropWhile isJsWs).reverse) isJsWs).length_le
  simp only [List.length_reverse] at h2 ⊢
  omega

/-- Helper: the message sanitizer never lengthens a string. -/
theorem sanitizeMessageText_toList_length_le (s : String) :
    (sanitizeMessageText s).toList.length ≤ s.toList.length := by
  have key : (trimList (removeTags (removeZeroWidth (collapseWs s.toList)))).length
      ≤ s.toList.length := by
    have h1 := trimList_length_le (removeTags (removeZeroWidth (collapseWs s.toList)))
    have h2 := removeTagsAux_length_le (removeZeroWidth (collapseWs s.toList)) false
    have h3 := List.length_filter_le (fun c => !isZeroWidthChar c) (collapseWs s.toList)
    have h4 := collapseWsAux_length_le s.toList false
    unfold removeTags removeZeroWidth collapseWs at *
    omega
  unfold sanitizeMessageText
  dsimp only
  split_ifs with h1 h2
  · simp
  · simp
  · simpa [toList_asString] using key

/-- Claim C3 counterexample: on `"a ⟨space⟩⟨ZWSP⟩⟨space⟩ b"` neither
sanitizer is idempotent — removing the zero-width character after collapsing
whitespace leaves a double space that only a second pass collapses. -/
theorem C3_counterexample :
    sanitizeMessageText (sanitizeMessageText c3s0) ≠ sanitizeMessageText c3s0 ∧
    sanitizeText (sanitizeText c3s0) ≠ sanitizeText c3s0 := by
  decide

/-- Claim C3 (amended): both sanitizers are idempotent on every string free
of zero-width characters and of `<` (HTML tags); sanitizing the pure
UI-placeholder strings with `sanitizeMessageText` yields the empty string. -/
theorem C3_sanitize_idempotent_amended (s : String)
    (hzw : ∀ c ∈ s.toList, isZeroWidthChar c = false)
    (hlt : ('<' : Char) ∉ s.toList) :
    sanitizeMessageText (sanitizeMessageText s) = sanitizeMessageText s ∧
    sanitizeText (sanitizeText s) = sanitizeText s ∧
    sanitizeMessageText "Write a message…" = "" ∧
    sanitizeMessageText "Drag your file here. Select your file" = "" := by
  have hzwC : ∀ c ∈ collapseWs s.toList, isZeroWidthChar c = false := by
    intro c hc
    rcases mem_collapseWsAux _ _ _ hc with h | h
    · rw [h]; decide
    · exact hzw c h
  have hltC : ('<' : Char) ∉ collapseWs s.toList := by
    intro h
    rcases mem_collapseWsAux _ _ _ h with h' | h'
    · exact absurd h' (by decide)
    · exact hlt h'
  have hzwid : removeZeroWidth (collapseWs s.toList) = collapseWs s.toList :=
    removeZeroWidth_eq_self _ hzwC
  have htags : removeTags (collapseWs s.toList) = collapseWs s.toList :=
    removeTagsAux_false_eq_self _ hltC
  have hshapeT : collapsedShape (trimList (collapseWs s.toList)) = true :=
    collapsedShape_trimList _ (collapsedShape_collapseWsAux _ false)
  have hcollapseT : collapseWs (trimList (collapseWs s.toList)) = trimList (collapseWs s.toList) :=
    (collapseWsAux_eq_self _ hshapeT).1
  have hzwT : ∀ c ∈ trimList (collapseWs s.toList), isZeroWidthChar c = false :=
    fun c hc => hzwC c (mem_trimList _ _ hc)
  have hltT : ('<' : Char) ∉ trimList (collapseWs s.toList) :=
    fun h => hltC (mem_trimList _ _ h)
  have hzwidT : removeZeroWidth (trimList (collapseWs s.toList)) = trimList (collapseWs s.toList) :=
    removeZeroWidth_eq_self _ hzwT
  have htagsT : removeTags (trimList (collapseWs s.toList)) = trimList (collapseWs s.toList) :=
    removeTagsAux_false_eq_self _ hltT
  have htrimT : trimList (trimList (collapseWs s.toList)) = trimList (collapseWs s.toList) :=
    trimList_idem _
  have hst : sanitizeText s = (trimList (collapseWs s.toList)).asString := by
    unfold sanitizeText
    rw [hzwid]
  have hstT : sanitizeText ((trimList (collapseWs s.toList)).asString) =
      (trimList (collapseWs s.toList)).asString := by
    unfold sanitizeText
    rw [toList_asString, hcollapseT, hzwidT, htrimT]
  have hm : sanitizeMessageText s =
      (if isUiPlaceholder ((trimList (collapseWs s.toList)).asString) then "" else
       if seqContains combinedUiPieces ((trimList (collapseWs s.toList)).asString).toList then ""
       else (trimList (collapseWs s.toList)).asString) := by
    unfold sanitizeMessageText
    rw [hzwid, htags]
  have hmT : sanitizeMessageText ((trimList (collapseWs s.toList)).asString) =
      (if isUiPlaceholder ((trimList (collapseWs s.toList)).asString) then "" else
       if seqContains combinedUiPieces ((trimList (collapseWs s.toList)).asString).toList then ""
       else (trimList (collapseWs s.toList)).asString) := by
    unfold sanitizeMessageText
    rw [toList_asString, hcollapseT, hzwidT, htagsT, htrimT]
    rfl
  have hempty : sanitizeMessageText "" = "" := by decide
  refine ⟨?_, ?_, by decide, by decide⟩
  · rw [hm]
    by_cases h1 : isUiPlaceholder ((trimList (collapseWs s.toList)).asString) = true
    · rw [if_pos h1]
      exact hempty
    · by_cases h2 : seqContains combinedUiPieces
          ((trimList (collapseWs s.toList)).asString).toList = true
      · rw [if_neg h1, if_pos h2]
        exact hempty
      · rw [if_neg h1, if_neg h2, hmT, if_neg h1, if_neg h2]
  · rw [hst, hstT]

/-- Claim C3 witness. -/
theorem C3_witness :
    sanitizeMessageText (sanitizeMessageText "  hello   world ") =
      sanitizeMessageText "  hello   world " ∧
    sanitizeText (sanitizeText "  hello   world ") = sanitizeText "  hello   world " :=
  ⟨(C3_sanitize_idempotent_amended "  hello   world " (by decide) (by decide)).1,
   (C3_sanitize_idempotent_amended "  hello   world " (by decide) (by decide)).2.1⟩

/-- Claim C10: the composer branch of `extractMessageText` deletes every
occurrence of the literal UI-label substrings — among them `"Send"` and
`"GIF"` — from the extracted text before returning it; consequently, for a
composer whose typed message is non-empty and contains `"Send"` or `"GIF"`,
the captured text differs from the text the user actually typed. -/
theorem C10_composer_ui_label_deletion (s : String) (hne : s ≠ "")
    (hocc : containsSub "Send".toList s.toList = true ∨
      containsSub "GIF".toList s.toList = true) :
    ∃ t, MessageExtractor.extractMessageTextE (some Elem.empty)
      (some (composerWithText s)) = .ok t ∧ t ≠ s := by
  have hstrip : (stripUiLabels s).toList.length < s.toList.length := by
    unfold stripUiLabels
    rw [toList_asString]
    have hfold : ((uiLabelPhrases.foldl
        (fun l phrase => removeAllSub phrase.toList l) s.toList)).length < s.toList.length := by
      rcases hocc with h | h
      · exact foldl_remove_length_lt uiLabelPhrases "Send" (by decide) s.toList (by decide) h
      · exact foldl_remove_length_lt uiLabelPhrases "GIF" (by decide) s.toList (by decide) h
    exact lt_of_le_of_lt (trimList_length_le _) hfold
  have hta : MessageExtractor.composerTextFromTextArea
      (Elem.mk (some s) none [] [] [] [] []) = stripUiLabels s := by
    unfold MessageExtractor.composerTextFromTextArea
    have hi : String.intercalate " " ([] : List String) = "" := rfl
    simp [Elem.querySelectorAll, Elem.qa, Elem.textContent, Elem.getAttribute, Elem.attrs,
      optStr, jsOr, hi, hne]
  have hsel1 : (composerWithText s).querySelector
      ".msg-form__contenteditable.t-14.t-black--light.t-normal.flex-grow-1.full-height.notranslate[contenteditable=\"true\"]" =
      some (Elem.mk (some s) none [] [] [] [] []) := rfl
  have hsel2 : (composerWithText s).querySelector
      ".msg-form__contenteditable[contenteditable=\"true\"]" = none := rfl
  have hsel3 : (composerWithText s).querySelector MESSAGING_SELECTORS.messageTextArea =
      none := rfl
  have hsel4 : (composerWithText s).querySelector ".msg-form__contenteditable" = none := rfl
  have hsel5 : (composerWithText s).querySelector "[contenteditable=\"true\"]" = none := rfl
  have hsel6 : (composerWithText s).querySelector
      ".msg-form__msg-content-container [contenteditable]" = none := rfl
  by_cases hz : stripUiLabels s = ""
  · -- every selector fails to produce text; the sent-message branch on the
    -- empty message element yields the empty string
    have hcomposer : MessageExtractor.extractComposerText (composerWithText s) = none := by
      unfold MessageExtractor.extractComposerText MessageExtractor.textAreaSelectors
      simp only [List.findSome?_cons, hsel1, hsel2, hsel3, hsel4, hsel5, hsel6, hta, hz,
        List.findSome?_nil]
      simp
    refine ⟨"", ?_, fun h => hne h.symm⟩
    unfold MessageExtractor.extractMessageTextE
    dsimp only
    rw [hcomposer]
    rfl
  · have hcomposer : MessageExtractor.extractComposerText (composerWithText s) =
        some (sanitizeMessageText (stripUiLabels s)) := by
      unfold MessageExtractor.extractComposerText MessageExtractor.textAreaSelectors
      simp only [List.findSome?_cons, hsel1, hta]
      simp [hz]
    refine ⟨sanitizeMessageText (stripUiLabels s), ?_, ?_⟩
    · unfold MessageExtractor.extractMessageTextE
      dsimp only
      rw [hcomposer]
    · intro heq
      have hlen := congrArg (fun x => x.toList.length) heq
      simp only at hlen
      have hle := sanitizeMessageText_toList_length_le (stripUiLabels s)
      omega

/-- Claim C10 witness: `"Send me the GIF later"` is captured differently
from what was typed. -/
theorem C10_witness :
    ("Send me the GIF later" ≠ "") ∧
    (∃ t, MessageExtractor.extractMessageTextE (some Elem.empty)
      (some (composerWithText "Send me the GIF later")) = .ok t ∧
      t ≠ "Send me the GIF later") :=
  ⟨by decide,
   C10_composer_ui_label_deletion "Send me the GIF later" (by decide)
     (Or.inl (by decide))⟩

/-- Membership is preserved by `insertByLastSeen`. -/
theorem mem_insertByLastSeen {q p : PerformanceManager.ManagedPost}
    {l : List PerformanceManager.ManagedPost} :
    q ∈ PerformanceManager.insertByLastSeen p l ↔ q = p ∨ q ∈ l := by
  induction l with
  | nil => simp [PerformanceManager.insertByLastSeen]
  | cons a l ih =>
    unfold PerformanceManager.insertByLastSeen
    by_cases h : a.lastSeen < p.lastSeen
    · rw [if_pos h]
      simp only [List.mem_cons, ih]
      tauto
    · rw [if_neg h]
      simp only [List.mem_cons]

/-- `insertByLastSeen` grows the list by one. -/
theorem length_insertByLastSeen (p : PerformanceManager.ManagedPost)
    (l : List PerformanceManager.ManagedPost) :
    (PerformanceManager.insertByLastSeen p l).length = l.length + 1 := by
  induction l with
  | nil => rfl
  | cons a l ih =>
    unfold PerformanceManager.insertByLastSeen
    by_cases h : a.lastSeen < p.lastSeen
    · rw [if_pos h]
      simp [ih]
    · rw [if_neg h]
      simp

/-- Membership is preserved by `sortByLastSeen`. -/
theorem mem_sortByLastSeen {q : PerformanceManager.ManagedPost}
    {l : List PerformanceManager.ManagedPost} :
    q ∈ PerformanceManager.sortByLastSeen l ↔ q ∈ l := by
  induction l with
  | nil => simp [PerformanceManager.sortByLastSeen]
  | cons a l ih =>
    unfold PerformanceManager.sortByLastSeen
    rw [mem_insertByLastSeen]
    simp [ih]

/-- `sortByLastSeen` preserves length. -/
theorem length_sortByLastSeen (l : List PerformanceManager.ManagedPost) :
    (PerformanceManager.sortByLastSeen l).length = l.length := by
  induction l with
  | nil => rfl
  | cons a l ih =>
    unfold PerformanceManager.sortByLastSeen
    rw [length_insertByLastSeen, ih, List.length_cons]

/-- `insertByLastSeen` preserves sortedness by ascending `lastSeen`. -/
theorem pairwise_insertByLastSeen (p : PerformanceManager.ManagedPost)
    (l : List PerformanceManager.ManagedPost)
    (h : List.Pairwise (fun a b => a.lastSeen ≤ b.lastSeen) l) :
    List.Pairwise (fun a b => a.lastSeen ≤ b.lastSeen)
      (PerformanceManager.insertByLastSeen p l) := by
  induction l with
  | nil => simp [PerformanceManager.insertByLastSeen]
  | cons a l ih =>
    rcases List.pairwise_cons.mp h with ⟨ha, hl⟩
    unfold PerformanceManager.insertByLastSeen
    by_cases hc : a.lastSeen < p.lastSeen
    · rw [if_pos hc]
      refine List.pairwise_cons.mpr ⟨?_, ih hl⟩
      intro q hq
      rcases mem_insertByLastSeen.mp hq with rfl | hq2
      · exact Nat.le_of_lt hc
      · exact ha q hq2
    · rw [if_neg hc]
      refine List.pairwise_cons.mpr ⟨?_, h⟩
      intro q hq
      rcases List.mem_cons.mp hq with rfl | hq2
      · exact Nat.le_of_not_lt hc
      · exact Nat.le_trans (Nat.le_of_not_lt hc) (ha q hq2)

/-- `sortByLastSeen` sorts by ascending `lastSeen`. -/
theorem pairwise_sortByLastSeen (l : List PerformanceManager.ManagedPost) :
    List.Pairwise (fun a b => a.lastSeen ≤ b.lastSeen)
      (PerformanceManager.sortByLastSeen l) := by
  induction l with
  | nil => simp [PerformanceManager.sortByLastSeen]
  | cons a l ih =>
    unfold PerformanceManager.sortByLastSeen
    exact pairwise_insertByLastSeen a _ ih

/-- Filtering out the unique entry with a given key removes exactly one
element when keys are distinct. -/
theorem length_filter_ne_key (l : List PerformanceManager.ManagedPost)
    (p : PerformanceManager.ManagedPost)
    (hnd : (l.map (fun q => q.key)).Nodup) (hp : p ∈ l) :
    (l.filter (fun q => !(q.key == p.key))).length = l.length - 1 := by
  induction l with
  | nil => cases hp
  | cons a l ih =>
    rw [List.map_cons, List.nodup_cons] at hnd
    rcases hnd with ⟨hak, hnd⟩
    rcases List.mem_cons.mp hp with rfl | hp2
    · have hkeep : l.filter (fun q => !(q.key == p.key)) = l := by
        apply List.filter_eq_self.mpr
        intro q hq
        have hqmem : q.key ∈ l.map (fun r => r.key) := List.mem_map.mpr ⟨q, hq, rfl⟩
        have hne : q.key ≠ p.key := fun hqa => hak (hqa ▸ hqmem)
        simp [beq_eq_false_iff_ne.mpr hne]
      simp [List.filter_cons, hkeep]
    · have hap : (a.key == p.key) = false := by
        apply beq_eq_false_iff_ne.mpr
        intro h
        exact hak (h ▸ List.mem_map.mpr ⟨p, hp2, rfl⟩)
      have hlpos : 0 < l.length := List.length_pos.mpr (List.ne_nil_of_mem hp2)
      rw [List.filter_cons, if_pos (by simp [hap])]
      simp only [List.length_cons, ih hnd hp2]
      omega

/-- Claim C7: when the managed-post cache holds 51 entries that are all
still attached to the document and inside the five-minute staleness window
(with distinct keys and distinct `lastSeen` stamps), `cleanupOldPosts`
evicts exactly one entry — the one with the oldest `lastSeen` — leaving the
other 50. -/
theorem C7_cache_eviction (now : Nat) (posts : List PerformanceManager.ManagedPost)
    (hlen : posts.length = 51)
    (hlive : ∀ q ∈ posts, q.inDom = true ∧
      ¬((now : Int) - (q.lastSeen : Int) > (PerformanceManager.postMaxAgeMs : Int)))
    (hkeys : (posts.map (fun q => q.key)).Nodup)
    (hseen : (posts.map (fun q => q.lastSeen)).Nodup) :
    ∃ p ∈ posts,
      (∀ q ∈ posts, q ≠ p → p.lastSeen < q.lastSeen) ∧
      PerformanceManager.cleanupOldPosts now posts =
        posts.filter (fun q => !(q.key == p.key)) ∧
      (PerformanceManager.cleanupOldPosts now posts).length = 50 := by
  have hkept : posts.filter (fun managed =>
      managed.inDom &&
        !((now : Int) - (managed.lastSeen : Int) > (PerformanceManager.postMaxAgeMs : Int))) =
      posts := by
    apply List.filter_eq_self.mpr
    intro q hq
    rcases hlive q hq with ⟨h1, h2⟩
    simp [h1, h2]
  obtain ⟨p, rest, hsort⟩ : ∃ p rest,
      PerformanceManager.sortByLastSeen posts = p :: rest := by
    cases hs : PerformanceManager.sortByLastSeen posts with
    | nil =>
      have hl := length_sortByLastSeen posts
      rw [hs, hlen] at hl
      simp at hl
    | cons p rest => exact ⟨p, rest, rfl⟩
  have hpmem : p ∈ posts := by
    have : p ∈ PerformanceManager.sortByLastSeen posts := by
      rw [hsort]; exact List.mem_cons_self p rest
    exact mem_sortByLastSeen.mp this
  have hmin : ∀ q ∈ posts, p.lastSeen ≤ q.lastSeen := by
    intro q hq
    have hq2 : q ∈ p :: rest := by
      rw [← hsort]; exact mem_sortByLastSeen.mpr hq
    rcases List.mem_cons.mp hq2 with rfl | hq3
    · exact Nat.le_refl _
    · have hpw := pairwise_sortByLastSeen posts
      rw [hsort] at hpw
      exact (List.pairwise_cons.mp hpw).1 q hq3
  have hstrict : ∀ q ∈ posts, q ≠ p → p.lastSeen < q.lastSeen := by
    intro q hq hne
    rcases Nat.lt_or_ge p.lastSeen q.lastSeen with h | h
    · exact h
    · exfalso
      have heq : p.lastSeen = q.lastSeen := Nat.le_antisymm (hmin q hq) h
      exact hne (List.inj_on_of_nodup_map hseen hq hpmem heq.symm)
  have hres : PerformanceManager.cleanupOldPosts now posts =
      posts.filter (fun q => !(q.key == p.key)) := by
    unfold PerformanceManager.cleanupOldPosts
    dsimp only
    rw [hkept, hlen, hsort]
    rw [if_pos (by decide)]
    have htake : (p :: rest).take (51 - PerformanceManager.maxButtons) = [p] := by
      simp [PerformanceManager.maxButtons]
    rw [htake]
    apply List.filter_congr
    intro q hq
    by_cases h : q.key = p.key
    · simp [h]
    · simp [List.contains, h, beq_eq_false_iff_ne.mpr h]
  refine ⟨p, hpmem, hstrict, hres, ?_⟩
  rw [hres, length_filter_ne_key posts p hkeys hpmem, hlen]

/-- Claim C7 witness: 51 live, fresh, distinctly keyed and stamped entries
at `now = 200000`. -/
theorem C7_witness :
    (c7posts.length = 51) ∧
    (∀ q ∈ c7posts, q.inDom = true ∧
      ¬((200000 : Int) - (q.lastSeen : Int) > (PerformanceManager.postMaxAgeMs : Int))) ∧
    ((c7posts.map (fun q => q.key)).Nodup) ∧
    ((c7posts.map (fun q => q.lastSeen)).Nodup) ∧
    (∃ p ∈ c7posts,
      (∀ q ∈ c7posts, q ≠ p → p.lastSeen < q.lastSeen) ∧
      PerformanceManager.cleanupOldPosts 200000 c7posts =
        c7posts.filter (fun q => !(q.key == p.key)) ∧
      (PerformanceManager.cleanupOldPosts 200000 c7posts).length = 50) :=
  ⟨by decide, by decide, by decide, by decide,
   C7_cache_eviction 200000 c7posts (by decide) (by decide) (by decide) (by decide)⟩

/-- `strToOpt` only returns non-empty strings. -/
theorem strToOpt_some_ne {s t : String} (h : strToOpt s = some t) : t ≠ "" := by
  unfold strToOpt at h
  by_cases hs : s = ""
  · rw [if_pos hs] at h
    cases h
  · rw [if_neg hs] at h
    injection h with h2
    subst h2
    exact hs

/-- The serialized carousel payload is never the empty string. -/
theorem mkCarouselJson_ne_empty (items : List (String × Option String)) :
    PostExtractor.mkCarouselJson items ≠ "" := by
  unfold PostExtractor.mkCarouselJson
  intro h
  have hl := congrArg String.length h
  rw [String.length_append, String.length_append] at hl
  have h1 : ("[" : String).length = 1 := rfl
  have h2 : ("]" : String).length = 1 := rfl
  have h0 : ("" : String).length = 0 := rfl
  rw [h1, h2, h0] at hl
  omega

/-- The serialized poll payload is never the empty string. -/
theorem mkPollJson_ne_empty (q : Option String) (options : List String) :
    PostExtractor.mkPollJson q options ≠ "" := by
  unfold PostExtractor.mkPollJson
  intro h
  have hl := congrArg String.length h
  rw [String.length_append, String.length_append, String.length_append,
    String.length_append] at hl
  have h1 : ("\x7b" : String).length = 1 := rfl
  have h0 : ("" : String).length = 0 := rfl
  rw [h1, h0] at hl
  omega

/-- Every image item produced by `extractImages` has non-empty `data`. -/
theorem extractImages_data_ne (c : Elem) (item : MediaItem)
    (h : item ∈ PostExtractor.extractImages c) : item.data ≠ "" := by
  unfold PostExtractor.extractImages at h
  rw [List.mem_flatten] at h
  obtain ⟨l, hl, hitem⟩ := h
  rw [List.mem_map] at hl
  obtain ⟨selector, hsel, rfl⟩ := hl
  rw [List.mem_filterMap] at hitem
  obtain ⟨img, himgmem, himg⟩ := hitem
  dsimp only at himg
  split at himg
  · rename_i hcond
    injection himg with h2
    subst h2
    simp only [Bool.and_eq_true, decide_eq_true_eq] at hcond
    simpa using hcond.1.1
  · exact Option.noConfusion himg

/-- Every video item produced by `extractVideos` has non-empty `data`. -/
theorem extractVideos_data_ne (c : Elem) (item : MediaItem)
    (h : item ∈ PostExtractor.extractVideos c) : item.data ≠ "" := by
  unfold PostExtractor.extractVideos at h
  dsimp only at h
  rw [List.mem_append] at h
  rcases h with h | h
  · rw [List.mem_flatten] at h
    obtain ⟨l, hl, hitem⟩ := h
    rw [List.mem_map] at hl
    obtain ⟨selector, hsel, rfl⟩ := hl
    rw [List.mem_filterMap] at hitem
    obtain ⟨video, hvmem, hv⟩ := hitem
    split at hv
    · cases hsrc : video.querySelectorAll "source" with
      | nil =>
        rw [hsrc] at hv
        dsimp only at hv
        split at hv
        · rename_i hcond2
          injection hv with h2
          subst h2
          simpa using hcond2
        · exact Option.noConfusion hv
      | cons s rest =>
        rw [hsrc] at hv
        dsimp only at hv
        split at hv
        · rename_i hcond2
          injection hv with h2
          subst h2
          simpa using hcond2
        · exact Option.noConfusion hv
    · rename_i hcond2
      injection hv with h2
      subst h2
      simpa using hcond2
  · rw [List.mem_filterMap] at h
    obtain ⟨preview, hpmem, hp⟩ := h
    cases hq : preview.querySelector "img" with
    | none =>
      rw [hq] at hp
      dsimp only at hp
      exact Option.noConfusion hp
    | some posterImg =>
      rw [hq] at hp
      dsimp only at hp
      split at hp
      · rename_i hcond
        injection hp with h2
        subst h2
        simpa using hcond
      · exact Option.noConfusion hp

/-- Every item produced by `extractDocuments` is a document item. -/
theorem extractDocuments_type (c : Elem) (item : MediaItem)
    (h : item ∈ PostExtractor.extractDocuments c) : item.type = MediaType.document := by
  unfold PostExtractor.extractDocuments at h
  rw [List.mem_flatten] at h
  obtain ⟨l, hl, hitem⟩ := h
  rw [List.mem_map] at hl
  obtain ⟨selector, hsel, rfl⟩ := hl
  rw [List.mem_filterMap] at hitem
  obtain ⟨doc, hdmem, hd⟩ := hitem
  dsimp only at hd
  split at hd
  · injection hd with h2
    subst h2
    rfl
  · exact Option.noConfusion hd

/-- Every article item produced by `extractArticles` has non-empty `data`. -/
theorem extractArticles_data_ne (c : Elem) (item : MediaItem)
    (h : item ∈ PostExtractor.extractArticles c) : item.data ≠ "" := by
  unfold PostExtractor.extractArticles at h
  rw [List.mem_filterMap] at h
  obtain ⟨article, hamem, ha⟩ := h
  dsimp only at ha
  split at ha
  · rename_i hcond
    injection ha with h2
    subst h2
    simp only [Bool.or_eq_true, decide_eq_true_eq] at hcond
    dsimp only
    unfold jsOr
    by_cases hu : propOf (article.querySelector "a[href]") "href" = ""
    · rw [if_pos hu]
      have ht : trimTextOf
          (article.querySelector ".feed-shared-article__title, .link-post-title") ≠ "" := by
        rcases hcond with ht | hu2
        · exact ht
        · exact absurd hu hu2
      rw [if_neg ht]
      exact ht
    · rw [if_neg hu]
      exact hu
  · exact Option.noConfusion ha

/-- Every carousel item produced by `extractCarousels` has non-empty `data`. -/
theorem extractCarousels_data_ne (c : Elem) (item : MediaItem)
    (h : item ∈ PostExtractor.extractCarousels c) : item.data ≠ "" := by
  unfold PostExtractor.extractCarousels at h
  rw [List.mem_filterMap] at h
  obtain ⟨pr, hpmem, hp⟩ := h
  dsimp only at hp
  split at hp
  · injection hp with h2
    subst h2
    simpa using mkCarouselJson_ne_empty _
  · exact Option.noConfusion hp

/-- Every poll item produced by `extractPolls` has non-empty `data`. -/
theorem extractPolls_data_ne (c : Elem) (item : MediaItem)
    (h : item ∈ PostExtractor.extractPolls c) : item.data ≠ "" := by
  unfold PostExtractor.extractPolls at h
  rw [List.mem_filterMap] at h
  obtain ⟨poll, hpmem, hp⟩ := h
  dsimp only at hp
  split at hp
  · injection hp with h2
    subst h2
    simpa using mkPollJson_ne_empty _ _
  · exact Option.noConfusion hp

/-- Claim C9 counterexample: `extractDocuments` keeps a document card with
an empty-text title and no link as an item whose `data` is `""`; a post
record containing that item passes `validatePostData`; and the comment
tracker keeps a bare `img` with no `src` as an image item with empty
`data`. -/
theorem C9_counterexample :
    (∃ item ∈ PostExtractor.extractDocuments docContainer, item.data = "") ∧
    PostExtractor.validatePostData (some postWithEmptyDoc) = true ∧
    (∃ item ∈ postWithEmptyDoc.content, item.data = "") ∧
    (∃ item ∈ CommentTracker.extractPostContentUniversal (some bareImgContainer),
      item.data = "") := by
  decide

/-- Claim C9 (amended): in the post extractor pipeline
`extractComprehensivePostContent`, every kept item other than a `document`
item has non-empty `data`; document items (and the comment tracker's media
items) are exempt, as the counterexample shows. -/
theorem C9_media_data_nonempty_amended (container? : Option Elem) (item : MediaItem)
    (hmem : item ∈ PostExtractor.extractComprehensivePostContent container?)
    (htype : item.type ≠ MediaType.document) :
    item.data ≠ "" := by
  cases container? with
  | none => simp [PostExtractor.extractComprehensivePostContent] at hmem
  | some container =>
    unfold PostExtractor.extractComprehensivePostContent at hmem
    simp only [List.mem_append] at hmem
    rcases hmem with (((((htext | himg) | hvid) | hdoc) | hart) | hcar) | hpoll
    · cases heq : strToOpt (PostExtractor.extractTextContent container) with
      | none =>
        rw [heq] at htext
        cases htext
      | some t =>
        rw [heq] at htext
        simp only [List.mem_singleton] at htext
        subst htext
        simpa using strToOpt_some_ne heq
    · exact extractImages_data_ne container item himg
    · exact extractVideos_data_ne container item hvid
    · exact absurd (extractDocuments_type container item hdoc) htype
    · exact extractArticles_data_ne container item hart
    · exact extractCarousels_data_ne container item hcar
    · exact extractPolls_data_ne container item hpoll

/-- Claim C9 witness: the image item extracted from a container holding one
CDN image is kept and has non-empty `data`. -/
theorem C9_witness :
    (imgItem9 ∈ PostExtractor.extractComprehensivePostContent (some imgContainer9)) ∧
    (imgItem9.type ≠ MediaType.document) ∧ imgItem9.data ≠ "" :=
  ⟨by decide, by decide,
   C9_media_data_nonempty_amended (some imgContainer9) imgItem9 (by decide) (by decide)⟩
